import Mathlib

/-!
# ndn-lite signature engine: `security/sign-verify.c`

A shallow embedding of the Signer / Verifier wrappers of `sign-verify.c`, and of the
randomness source `ndn_lite_rng_nrf_crypto` of `ndn-lite-rng-nrf-crypto-impl.c`.

* Byte regions reached through a C pointer are lists of naturals (one entry per byte).
* `uint32_t` fields are naturals; every `uint32_t` addition of the source is reduced
  modulo `2^32` (`u32`).
* A C function that mutates `*signer` returns the result code together with the new
  signer value.
* The constants of the headers that are not part of the sources at hand
  (`NDN_ERROR_*`, `NDN_ECDSA_CURVE_*`), the compile-time switch `FEATURE_PERIPH_HWRNG`
  and the primitives of the external libraries (RIOT hashes, micro-ecc) are the fields
  of a `Platform` record: the wrappers are verified for every platform.
-/

namespace NdnLite

/-! ## Machine arithmetic and byte regions -/

/-- Reduction of a natural number to the range of `uint32_t`. -/
def u32 (n : Nat) : Nat := n % 4294967296

/-- Store `bytes` into the region `buf`, starting `off` bytes after its base; the bytes
before and after the stored block are kept. -/
def mem_store (buf : List Nat) (off : Nat) (bytes : List Nat) : List Nat :=
  buf.take off ++ bytes ++ buf.drop (off + bytes.length)

/-- C `memcmp(s1, s2, n)`: zero when the first `n` bytes agree, otherwise the difference of
the first pair of bytes that differ. Both regions are expected to hold `n` bytes; the
comparison stops where either region ends. -/
def memcmp : List Nat → List Nat → Nat → Int
  | a :: s1, b :: s2, n + 1 => if a = b then memcmp s1 s2 n else (a : Int) - (b : Int)
  | _, _, _ => 0

/-! ## External collaborators -/

/-- Curve parameter sets of micro-ecc, one per getter called by the dispatch
(`uECC_secp160r1()`, `uECC_secp192r1()`, `uECC_secp224r1()`, `uECC_secp256r1()`,
`uECC_secp256k1()`). -/
inductive uECC_Curve where
  | uECC_secp160r1
  | uECC_secp192r1
  | uECC_secp224r1
  | uECC_secp256r1
  | uECC_secp256k1
  deriving DecidableEq, Repr

/-- The hash context handed to `uECC_sign_deterministic` (`uECC_HashContext` of micro-ecc):
three hooks over a hash state, the block size, the result size, and the scratch region
`tmp`, represented by its length in bytes. -/
structure uECC_HashContext where
  init_hash : List Nat
  update_hash : List Nat → List Nat → List Nat
  finish_hash : List Nat → List Nat
  block_size : Nat
  result_size : Nat
  tmp : Nat

/-- Everything `sign-verify.c` takes from outside its own text: the error codes and curve
identifiers of the ndn-lite headers, the compile-time switch `FEATURE_PERIPH_HWRNG`, and
the primitives of RIOT (`sha256`, the streaming `sha256_*` calls, `hmac_sha256`) and of
micro-ecc (`uECC_sign_deterministic`, `uECC_sign`, `uECC_verify`).

A signing primitive returns its `int` result and the bytes it stored at the base of the
signature region it was given (it may store bytes even when it reports failure).
`uECC_sign` draws on the random source of the platform, which is made explicit as its
first argument. -/
structure Platform where
  NDN_ERROR_OVERSIZE : Int
  NDN_ERROR_WRONG_KEY_SIZE : Int
  NDN_ERROR_WRONG_SIG_SIZE : Int
  NDN_ERROR_CRYPTO_ALGO_FAILURE : Int
  NDN_ERROR_UNSUPPORT_CRYPTO_ALGO : Int
  NDN_ECDSA_CURVE_SECP160R1 : Nat
  NDN_ECDSA_CURVE_SECP192R1 : Nat
  NDN_ECDSA_CURVE_SECP224R1 : Nat
  NDN_ECDSA_CURVE_SECP256R1 : Nat
  NDN_ECDSA_CURVE_SECP256K1 : Nat
  FEATURE_PERIPH_HWRNG : Bool
  sha256 : List Nat → List Nat
  sha256_init : List Nat
  sha256_update : List Nat → List Nat → List Nat
  sha256_final : List Nat → List Nat
  hmac_sha256 : List Nat → List Nat → List Nat
  uECC_sign_deterministic :
    List Nat → List Nat → Nat → uECC_HashContext → uECC_Curve → Int × List Nat
  uECC_sign : List Nat → List Nat → List Nat → Nat → uECC_Curve → Int × List Nat
  uECC_verify : List Nat → List Nat → Nat → List Nat → uECC_Curve → Int

/-- The digest primitives store exactly 32 bytes (`SHA256_DIGEST_LENGTH`). -/
def Platform.DigestSized (E : Platform) : Prop :=
  (∀ m, (E.sha256 m).length = 32) ∧ (∀ k m, (E.hmac_sha256 k m).length = 32)

/-- The five error codes are pairwise different and none of them is `0` (success) or `-1`
(the verification mismatch result). -/
def Platform.ErrorCodesDistinct (E : Platform) : Prop :=
  [0, -1, E.NDN_ERROR_OVERSIZE, E.NDN_ERROR_WRONG_KEY_SIZE, E.NDN_ERROR_WRONG_SIG_SIZE,
    E.NDN_ERROR_CRYPTO_ALGO_FAILURE, E.NDN_ERROR_UNSUPPORT_CRYPTO_ALGO].Nodup

/-! ## Data model -/

/-- The fields of `ndn_signer_t` that `sign-verify.c` reads and writes. -/
structure ndn_signer_t where
  input_value : List Nat
  input_size : Nat
  output_value : List Nat
  output_max_size : Nat
  output_used_size : Nat
  deriving DecidableEq, Repr

/-- The fields of `ndn_verifier_t` that `sign-verify.c` reads. -/
structure ndn_verifier_t where
  input_value : List Nat
  input_size : Nat
  sig_value : List Nat
  sig_size : Nat
  deriving DecidableEq, Repr

/-! ## The hash context of the deterministic signing path -/

/-- Hook `_init_sha256`: `sha256_init` on the embedded context. -/
def _init_sha256 (E : Platform) : List Nat := E.sha256_init

/-- Hook `_update_sha256`: `sha256_update` with the first `message_size` bytes. -/
def _update_sha256 (E : Platform) (ctx : List Nat) (message : List Nat) : List Nat :=
  E.sha256_update ctx message

/-- Hook `_finish_sha256`: `sha256_final`. -/
def _finish_sha256 (E : Platform) (ctx : List Nat) : List Nat := E.sha256_final ctx

/-- The context built by `ndn_signer_ecdsa_sign` when `FEATURE_PERIPH_HWRNG` is not defined:
the three hooks, `block_size = 64`, `result_size = 32` and `tmp[32 + 32 + 64]`. -/
def HashContext (E : Platform) : uECC_HashContext :=
  { init_hash := _init_sha256 E
    update_hash := _update_sha256 E
    finish_hash := _finish_sha256 E
    block_size := 64
    result_size := 32
    tmp := 32 + 32 + 64 }

/-! ## Signer -/

/-- Embedding of `ndn_signer_sha256_sign`. -/
def ndn_signer_sha256_sign (E : Platform) (signer : ndn_signer_t) : Int × ndn_signer_t :=
  if u32 (signer.output_used_size + 32) > signer.output_max_size then
    (E.NDN_ERROR_OVERSIZE, signer)
  else
    let signer1 := { signer with
      output_value :=
        mem_store signer.output_value 0 (E.sha256 (signer.input_value.take signer.input_size)) }
    (0, { signer1 with output_used_size := u32 (signer1.output_used_size + 32) })

/-- The `switch (ecdsa_type)` of `ndn_signer_ecdsa_sign`; `none` is its `default:` branch. -/
def ndn_signer_ecdsa_sign_curve (E : Platform) (ecdsa_type : Nat) : Option uECC_Curve :=
  if ecdsa_type = E.NDN_ECDSA_CURVE_SECP160R1 then some uECC_Curve.uECC_secp160r1
  else if ecdsa_type = E.NDN_ECDSA_CURVE_SECP192R1 then some uECC_Curve.uECC_secp192r1
  else if ecdsa_type = E.NDN_ECDSA_CURVE_SECP224R1 then some uECC_Curve.uECC_secp224r1
  else if ecdsa_type = E.NDN_ECDSA_CURVE_SECP256R1 then some uECC_Curve.uECC_secp256r1
  else if ecdsa_type = E.NDN_ECDSA_CURVE_SECP256K1 then some uECC_Curve.uECC_secp256k1
  else none

/-- Embedding of `ndn_signer_ecdsa_sign`. `rng` is the state of the platform random source,
consulted only when `FEATURE_PERIPH_HWRNG` is defined. -/
def ndn_signer_ecdsa_sign (E : Platform) (rng : List Nat) (signer : ndn_signer_t)
    (key_value : List Nat) (key_size : Nat) (ecdsa_type : Nat) : Int × ndn_signer_t :=
  if u32 (signer.output_used_size + 64) > signer.output_max_size then
    (E.NDN_ERROR_OVERSIZE, signer)
  else if key_size ≠ 32 then
    (E.NDN_ERROR_WRONG_KEY_SIZE, signer)
  else
    let input_hash :=
      mem_store (List.replicate 32 0) 0 (E.sha256 (signer.input_value.take signer.input_size))
    match ndn_signer_ecdsa_sign_curve E ecdsa_type with
    | none => (E.NDN_ERROR_UNSUPPORT_CRYPTO_ALGO, signer)
    | some curve =>
      let ecc_sign_result :=
        if E.FEATURE_PERIPH_HWRNG then
          E.uECC_sign rng key_value input_hash 32 curve
        else
          E.uECC_sign_deterministic key_value input_hash 32 (HashContext E) curve
      let signer1 := { signer with
        output_value := mem_store signer.output_value 0 ecc_sign_result.2 }
      if ecc_sign_result.1 = 0 then
        (E.NDN_ERROR_CRYPTO_ALGO_FAILURE, signer1)
      else
        (0, { signer1 with output_used_size := u32 (signer1.output_used_size + 64) })

/-- Embedding of `ndn_signer_hmac_sign`. -/
def ndn_signer_hmac_sign (E : Platform) (signer : ndn_signer_t)
    (key_value : List Nat) (key_size : Nat) : Int × ndn_signer_t :=
  if u32 (signer.output_used_size + 32) > signer.output_max_size then
    (E.NDN_ERROR_OVERSIZE, signer)
  else if key_size ≠ 32 then
    (E.NDN_ERROR_WRONG_KEY_SIZE, signer)
  else
    let signer1 := { signer with
      output_value :=
        mem_store signer.output_value 0
          (E.hmac_sha256 (key_value.take key_size) (signer.input_value.take signer.input_size)) }
    (0, { signer1 with output_used_size := u32 (signer1.output_used_size + 32) })

/-! ## Verifier -/

/-- Embedding of `ndn_verifier_sha256_verify`. -/
def ndn_verifier_sha256_verify (E : Platform) (verifier : ndn_verifier_t) : Int :=
  if verifier.sig_size ≠ 32 then
    E.NDN_ERROR_WRONG_SIG_SIZE
  else
    let input_hash :=
      mem_store (List.replicate 32 0) 0
        (E.sha256 (verifier.input_value.take verifier.input_size))
    if memcmp input_hash verifier.sig_value 32 ≠ 0 then -1 else 0

/-- The `switch(ecdsa_type)` of `ndn_verifier_ecdsa_verify`; `none` is its `default:` branch. -/
def ndn_verifier_ecdsa_verify_curve (E : Platform) (ecdsa_type : Nat) : Option uECC_Curve :=
  if ecdsa_type = E.NDN_ECDSA_CURVE_SECP160R1 then some uECC_Curve.uECC_secp160r1
  else if ecdsa_type = E.NDN_ECDSA_CURVE_SECP192R1 then some uECC_Curve.uECC_secp192r1
  else if ecdsa_type = E.NDN_ECDSA_CURVE_SECP224R1 then some uECC_Curve.uECC_secp224r1
  else if ecdsa_type = E.NDN_ECDSA_CURVE_SECP256R1 then some uECC_Curve.uECC_secp256r1
  else if ecdsa_type = E.NDN_ECDSA_CURVE_SECP256K1 then some uECC_Curve.uECC_secp256k1
  else none

/-- Embedding of `ndn_verifier_ecdsa_verify`. -/
def ndn_verifier_ecdsa_verify (E : Platform) (verifier : ndn_verifier_t)
    (key_value : List Nat) (key_size : Nat) (ecdsa_type : Nat) : Int :=
  if verifier.sig_size ≠ 64 then
    E.NDN_ERROR_WRONG_SIG_SIZE
  else if key_size ≠ 64 then
    E.NDN_ERROR_WRONG_KEY_SIZE
  else
    let input_hash :=
      mem_store (List.replicate 32 0) 0
        (E.sha256 (verifier.input_value.take verifier.input_size))
    match ndn_verifier_ecdsa_verify_curve E ecdsa_type with
    | none => E.NDN_ERROR_UNSUPPORT_CRYPTO_ALGO
    | some curve =>
      if E.uECC_verify key_value input_hash 32 verifier.sig_value curve = 0 then -1 else 0

/-- Embedding of `ndn_verifier_hmac_verify`. -/
def ndn_verifier_hmac_verify (E : Platform) (verifier : ndn_verifier_t)
    (key_value : List Nat) (key_size : Nat) : Int :=
  if verifier.sig_size ≠ 32 then
    E.NDN_ERROR_WRONG_SIG_SIZE
  else if key_size ≠ 32 then
    E.NDN_ERROR_WRONG_KEY_SIZE
  else
    let input_hmac :=
      mem_store (List.replicate 32 0) 0
        (E.hmac_sha256 (key_value.take key_size)
          (verifier.input_value.take verifier.input_size))
    if memcmp input_hmac verifier.sig_value 32 ≠ 0 then -1 else 0

/-! ## The three sign operations as one family -/

/-- One call of a sign operation together with its arguments other than the signer. -/
inductive SignOp where
  | sha256
  | ecdsa (rng : List Nat) (key_value : List Nat) (key_size : Nat) (ecdsa_type : Nat)
  | hmac (key_value : List Nat) (key_size : Nat)

/-- Run the sign operation named by a `SignOp` on a signer. -/
def SignOp.run (E : Platform) (signer : ndn_signer_t) : SignOp → Int × ndn_signer_t
  | SignOp.sha256 => ndn_signer_sha256_sign E signer
  | SignOp.ecdsa rng key_value key_size ecdsa_type =>
      ndn_signer_ecdsa_sign E rng signer key_value key_size ecdsa_type
  | SignOp.hmac key_value key_size => ndn_signer_hmac_sign E signer key_value key_size

/-- The number of bytes by which the operation advances `output_used_size` (the literal
`32` or `64` of its capacity check and of its `+=`). -/
def SignOp.tag_length : SignOp → Nat
  | SignOp.sha256 => 32
  | SignOp.ecdsa _ _ _ _ => 64
  | SignOp.hmac _ _ => 32

/-- Flip bit `j` of byte `i` of a byte sequence. -/
def flip_bit (sig : List Nat) (i j : Nat) : List Nat :=
  sig.set i (sig.getD i 0 ^^^ 2 ^ j)

/-- A signer over `input_value` / `input_size` and an output region of declared capacity
`output_max_size`, with the cursor at `0`. -/
def fresh_signer (input_value : List Nat) (input_size : Nat) (output_value : List Nat)
    (output_max_size : Nat) : ndn_signer_t :=
  { input_value := input_value
    input_size := input_size
    output_value := output_value
    output_max_size := output_max_size
    output_used_size := 0 }

/-- A verifier over `input_value` / `input_size` whose signature is the whole of `sig`. -/
def verifier_for (input_value : List Nat) (input_size : Nat) (sig : List Nat) :
    ndn_verifier_t :=
  { input_value := input_value
    input_size := input_size
    sig_value := sig
    sig_size := sig.length }

/-- The call of the signing primitive made by `ndn_signer_ecdsa_sign`, selected at compile
time by `FEATURE_PERIPH_HWRNG`: `uECC_sign_deterministic` with the hash context when the
switch is not defined, `uECC_sign` otherwise. -/
def ecc_sign_call (E : Platform) (rng key_value input_hash : List Nat) (curve : uECC_Curve) :
    Int × List Nat :=
  if E.FEATURE_PERIPH_HWRNG then
    E.uECC_sign rng key_value input_hash 32 curve
  else
    E.uECC_sign_deterministic key_value input_hash 32 (HashContext E) curve

/-- The curve identifier is one of the five `case` labels of the two dispatches. -/
def Platform.SupportedCurve (E : Platform) (ecdsa_type : Nat) : Prop :=
  ecdsa_type = E.NDN_ECDSA_CURVE_SECP160R1 ∨ ecdsa_type = E.NDN_ECDSA_CURVE_SECP192R1 ∨
  ecdsa_type = E.NDN_ECDSA_CURVE_SECP224R1 ∨ ecdsa_type = E.NDN_ECDSA_CURVE_SECP256R1 ∨
  ecdsa_type = E.NDN_ECDSA_CURVE_SECP256K1

instance Platform.decSupportedCurve (E : Platform) (ecdsa_type : Nat) :
    Decidable (E.SupportedCurve ecdsa_type) := by
  unfold Platform.SupportedCurve
  infer_instance

/-! ## The randomness source `ndn-lite-rng-nrf-crypto-impl.c` -/

/-- The calls into the nRF crypto library that `ndn_lite_rng_nrf_crypto` can make. -/
inductive NrfCall where
  | nrf_crypto_init
  | nrf_crypto_rng_vector_generate (size : Nat)
  deriving DecidableEq, Repr

/-- The nRF SDK as `ndn_lite_rng_nrf_crypto` sees it: the constant `NRF_SUCCESS`, the return
code of `nrf_crypto_init()`, and `nrf_crypto_rng_vector_generate(dest, size)` as a function
from the region `dest` and `size` to its return code and the region after the call. -/
structure NrfSdk where
  NRF_SUCCESS : Nat
  nrf_crypto_init : Nat
  nrf_crypto_rng_vector_generate : List Nat → Nat → Nat × List Nat

/-- What a call of `ndn_lite_rng_nrf_crypto` leaves behind: its `int` result, the region
`dest`, and the library calls it made, in order. -/
structure RngOutcome where
  ret : Int
  dest : List Nat
  calls : List NrfCall
  deriving DecidableEq, Repr

/-- Embedding of `ndn_lite_rng_nrf_crypto`. -/
def ndn_lite_rng_nrf_crypto (S : NrfSdk) (dest : List Nat) (size : Nat) : RngOutcome :=
  let ret_val := S.nrf_crypto_init
  if ret_val ≠ S.NRF_SUCCESS then
    { ret := 0, dest := dest, calls := [NrfCall.nrf_crypto_init] }
  else
    let generated := S.nrf_crypto_rng_vector_generate dest size
    let ret_val := generated.1
    if ret_val ≠ S.NRF_SUCCESS then
      { ret := 0, dest := generated.2,
        calls := [NrfCall.nrf_crypto_init, NrfCall.nrf_crypto_rng_vector_generate size] }
    else
      { ret := 1, dest := generated.2,
        calls := [NrfCall.nrf_crypto_init, NrfCall.nrf_crypto_rng_vector_generate size] }

/-! ## A concrete platform for running the wrappers -/

/-- Stand-in for `sha256` on the sample platform: 32 bytes derived from the byte sum. -/
def sample_sha256 (m : List Nat) : List Nat :=
  (List.range 32).map (fun i => (m.sum + i + 1) % 256)

/-- Stand-in for `hmac_sha256` on the sample platform. -/
def sample_hmac_sha256 (k m : List Nat) : List Nat :=
  (List.range 32).map (fun i => (k.sum + 2 * m.sum + 3 * i + 7) % 256)

/-- Stand-in for the micro-ecc signing primitives: 64 bytes derived from key and hash. -/
def sample_sign (key hash : List Nat) : Int × List Nat :=
  (1, (List.range 64).map (fun i => (key.sum + hash.sum + i) % 256))

/-- A sample platform on which the wrappers can be evaluated: distinct sample values for the
header constants, deterministic mode, and fixed-length stand-ins for the primitives. -/
def samplePlatform : Platform :=
  { NDN_ERROR_OVERSIZE := -10
    NDN_ERROR_WRONG_KEY_SIZE := -22
    NDN_ERROR_WRONG_SIG_SIZE := -23
    NDN_ERROR_CRYPTO_ALGO_FAILURE := -25
    NDN_ERROR_UNSUPPORT_CRYPTO_ALGO := -26
    NDN_ECDSA_CURVE_SECP160R1 := 21
    NDN_ECDSA_CURVE_SECP192R1 := 22
    NDN_ECDSA_CURVE_SECP224R1 := 23
    NDN_ECDSA_CURVE_SECP256R1 := 24
    NDN_ECDSA_CURVE_SECP256K1 := 25
    FEATURE_PERIPH_HWRNG := false
    sha256 := sample_sha256
    sha256_init := []
    sha256_update := fun ctx m => ctx ++ m
    sha256_final := sample_sha256
    hmac_sha256 := sample_hmac_sha256
    uECC_sign_deterministic := fun key hash _ _ _ => sample_sign key hash
    uECC_sign := fun _ key hash _ _ => sample_sign key hash
    uECC_verify := fun key hash _ sig _ =>
      if sig.take 64 = (sample_sign key hash).2 then 1 else 0 }

/-- A signer over the 3-byte input `01 02 03` with an output region of `cap` zero bytes
and the cursor at `used`. -/
def sample_signer (cap used : Nat) : ndn_signer_t :=
  { input_value := [1, 2, 3]
    input_size := 3
    output_value := List.replicate cap 0
    output_max_size := cap
    output_used_size := used }

/-- A verifier over the 3-byte input `01 02 03` with a signature region of `n` zero bytes
and `sig_size = n`. -/
def sample_verifier (n : Nat) : ndn_verifier_t :=
  { input_value := [1, 2, 3]
    input_size := 3
    sig_value := List.replicate n 0
    sig_size := n }

/-- A 32-byte key. -/
def sample_key : List Nat := List.replicate 32 7

/-- A 64-byte public key that the stand-in `uECC_verify` of the sample platform matches with
`sample_key` (same byte sum). -/
def sample_public_key : List Nat := List.replicate 32 7 ++ List.replicate 32 0

/-- The sample platform with a deterministic signing primitive that reports the hash
context it was handed: it stores the three bytes `block_size`, `result_size` and the length
of `tmp`, and succeeds. -/
def probePlatform : Platform :=
  { samplePlatform with
    uECC_sign_deterministic := fun _ _ _ ctx _ => (1, [ctx.block_size, ctx.result_size, ctx.tmp]) }

/-- The sample platform with a deterministic signing primitive that stores the first half
of a signature (32 bytes `0xAA`) and then reports failure. -/
def halfwayPlatform : Platform :=
  { samplePlatform with
    uECC_sign_deterministic := fun _ _ _ _ _ => (0, List.replicate 32 170) }

/-- The sample platform with a deterministic signing primitive that always reports failure:
for a key whose byte sum is 224 (such as `sample_key`) it stores nothing, for every other
key it first stores 32 bytes `0xAA`. -/
def selectivePlatform : Platform :=
  { samplePlatform with
    uECC_sign_deterministic := fun key _ _ _ _ =>
      if key.sum = 224 then (0, []) else (0, List.replicate 32 170) }

/-- An nRF SDK whose initialisation fails (`NRF_SUCCESS = 0`, `nrf_crypto_init() = 1`) and
whose generator would fill the region with `0x55`. -/
def sample_sdk_init_fails : NrfSdk :=
  { NRF_SUCCESS := 0
    nrf_crypto_init := 1
    nrf_crypto_rng_vector_generate := fun dest size =>
      (0, List.replicate size 85 ++ dest.drop size) }

/-! ## Basic facts about the byte-region operations -/

theorem mem_store_zero (buf bytes : List Nat) :
    mem_store buf 0 bytes = bytes ++ buf.drop bytes.length := by
  simp [mem_store]

theorem mem_store_zero_take (buf bytes : List Nat) :
    (mem_store buf 0 bytes).take bytes.length = bytes := by
  simp [mem_store]

theorem mem_store_zero_drop (buf bytes : List Nat) :
    (mem_store buf 0 bytes).drop bytes.length = buf.drop bytes.length := by
  simp [mem_store]

theorem mem_store_scratch (bytes : List Nat) (h : bytes.length = 32) :
    mem_store (List.replicate 32 0) 0 bytes = bytes := by
  simp [mem_store, h]

theorem memcmp_eq_zero_iff :
    ∀ (n : Nat) (s1 s2 : List Nat), n ≤ s1.length → n ≤ s2.length →
      (memcmp s1 s2 n = 0 ↔ s1.take n = s2.take n)
  | 0, s1, s2, _, _ => by cases s1 <;> cases s2 <;> simp [memcmp]
  | n + 1, [], _, h1, _ => by simp at h1
  | n + 1, _ :: _, [], _, h2 => by simp at h2
  | n + 1, a :: s1, b :: s2, h1, h2 => by
      have ih := memcmp_eq_zero_iff n s1 s2 (by simpa using h1) (by simpa using h2)
      by_cases hab : a = b
      · simp [memcmp, hab, ih]
      · have : (a : Int) - (b : Int) ≠ 0 := by omega
        simp [memcmp, hab, this]

theorem sample_digest_sized : samplePlatform.DigestSized := by
  constructor
  · intro m; simp [samplePlatform, sample_sha256]
  · intro k m; simp [samplePlatform, sample_hmac_sha256]

theorem sample_codes_distinct : samplePlatform.ErrorCodesDistinct := by
  simp [Platform.ErrorCodesDistinct, samplePlatform]

/-! ## Shape of the three sign operations -/

theorem sha256_sign_reject (E : Platform) (signer : ndn_signer_t)
    (h : u32 (signer.output_used_size + 32) > signer.output_max_size) :
    ndn_signer_sha256_sign E signer = (E.NDN_ERROR_OVERSIZE, signer) := by
  simp [ndn_signer_sha256_sign, h]

theorem sha256_sign_accept (E : Platform) (signer : ndn_signer_t)
    (h : ¬ u32 (signer.output_used_size + 32) > signer.output_max_size) :
    ndn_signer_sha256_sign E signer =
      (0, { signer with
        output_value :=
          mem_store signer.output_value 0 (E.sha256 (signer.input_value.take signer.input_size))
        output_used_size := u32 (signer.output_used_size + 32) }) := by
  simp [ndn_signer_sha256_sign, h]

theorem hmac_sign_reject (E : Platform) (signer : ndn_signer_t) (key_value : List Nat)
    (key_size : Nat) (h : u32 (signer.output_used_size + 32) > signer.output_max_size) :
    ndn_signer_hmac_sign E signer key_value key_size = (E.NDN_ERROR_OVERSIZE, signer) := by
  simp [ndn_signer_hmac_sign, h]

theorem hmac_sign_wrong_key (E : Platform) (signer : ndn_signer_t) (key_value : List Nat)
    (key_size : Nat) (h : ¬ u32 (signer.output_used_size + 32) > signer.output_max_size)
    (hk : key_size ≠ 32) :
    ndn_signer_hmac_sign E signer key_value key_size =
      (E.NDN_ERROR_WRONG_KEY_SIZE, signer) := by
  simp [ndn_signer_hmac_sign, h, hk]

theorem hmac_sign_accept (E : Platform) (signer : ndn_signer_t) (key_value : List Nat)
    (h : ¬ u32 (signer.output_used_size + 32) > signer.output_max_size) :
    ndn_signer_hmac_sign E signer key_value 32 =
      (0, { signer with
        output_value :=
          mem_store signer.output_value 0
            (E.hmac_sha256 (key_value.take 32) (signer.input_value.take signer.input_size))
        output_used_size := u32 (signer.output_used_size + 32) }) := by
  simp [ndn_signer_hmac_sign, h]

theorem ecdsa_sign_reject (E : Platform) (rng : List Nat) (signer : ndn_signer_t)
    (key_value : List Nat) (key_size ecdsa_type : Nat)
    (h : u32 (signer.output_used_size + 64) > signer.output_max_size) :
    ndn_signer_ecdsa_sign E rng signer key_value key_size ecdsa_type =
      (E.NDN_ERROR_OVERSIZE, signer) := by
  simp [ndn_signer_ecdsa_sign, h]

theorem ecdsa_sign_wrong_key (E : Platform) (rng : List Nat) (signer : ndn_signer_t)
    (key_value : List Nat) (key_size ecdsa_type : Nat)
    (h : ¬ u32 (signer.output_used_size + 64) > signer.output_max_size)
    (hk : key_size ≠ 32) :
    ndn_signer_ecdsa_sign E rng signer key_value key_size ecdsa_type =
      (E.NDN_ERROR_WRONG_KEY_SIZE, signer) := by
  simp [ndn_signer_ecdsa_sign, h, hk]

theorem ecdsa_sign_no_curve (E : Platform) (rng : List Nat) (signer : ndn_signer_t)
    (key_value : List Nat) (ecdsa_type : Nat)
    (h : ¬ u32 (signer.output_used_size + 64) > signer.output_max_size)
    (hc : ndn_signer_ecdsa_sign_curve E ecdsa_type = none) :
    ndn_signer_ecdsa_sign E rng signer key_value 32 ecdsa_type =
      (E.NDN_ERROR_UNSUPPORT_CRYPTO_ALGO, signer) := by
  simp [ndn_signer_ecdsa_sign, h, hc]

/-- The five ways a call of `ndn_signer_ecdsa_sign` can end. -/
theorem ecdsa_sign_outcome (E : Platform) (rng : List Nat) (signer : ndn_signer_t)
    (key_value : List Nat) (key_size ecdsa_type : Nat) :
    (u32 (signer.output_used_size + 64) > signer.output_max_size ∧
      ndn_signer_ecdsa_sign E rng signer key_value key_size ecdsa_type
        = (E.NDN_ERROR_OVERSIZE, signer)) ∨
    (¬ u32 (signer.output_used_size + 64) > signer.output_max_size ∧ key_size ≠ 32 ∧
      ndn_signer_ecdsa_sign E rng signer key_value key_size ecdsa_type
        = (E.NDN_ERROR_WRONG_KEY_SIZE, signer)) ∨
    (¬ u32 (signer.output_used_size + 64) > signer.output_max_size ∧ key_size = 32 ∧
      ndn_signer_ecdsa_sign_curve E ecdsa_type = none ∧
      ndn_signer_ecdsa_sign E rng signer key_value key_size ecdsa_type
        = (E.NDN_ERROR_UNSUPPORT_CRYPTO_ALGO, signer)) ∨
    (¬ u32 (signer.output_used_size + 64) > signer.output_max_size ∧ key_size = 32 ∧
      ∃ curve bytes, ndn_signer_ecdsa_sign_curve E ecdsa_type = some curve ∧
        ndn_signer_ecdsa_sign E rng signer key_value key_size ecdsa_type
          = (E.NDN_ERROR_CRYPTO_ALGO_FAILURE,
              { signer with output_value := mem_store signer.output_value 0 bytes })) ∨
    (¬ u32 (signer.output_used_size + 64) > signer.output_max_size ∧ key_size = 32 ∧
      ∃ curve bytes, ndn_signer_ecdsa_sign_curve E ecdsa_type = some curve ∧
        ndn_signer_ecdsa_sign E rng signer key_value key_size ecdsa_type
          = (0, { signer with
                output_value := mem_store signer.output_value 0 bytes
                output_used_size := u32 (signer.output_used_size + 64) })) := by
  by_cases h : u32 (signer.output_used_size + 64) > signer.output_max_size
  · exact Or.inl ⟨h, ecdsa_sign_reject E rng signer key_value key_size ecdsa_type h⟩
  · by_cases hk : key_size ≠ 32
    · exact Or.inr (Or.inl
        ⟨h, hk, ecdsa_sign_wrong_key E rng signer key_value key_size ecdsa_type h hk⟩)
    · have hk32 : key_size = 32 := by simpa using hk
      subst hk32
      cases hc : ndn_signer_ecdsa_sign_curve E ecdsa_type with
      | none =>
        exact Or.inr (Or.inr (Or.inl
          ⟨h, rfl, rfl, ecdsa_sign_no_curve E rng signer key_value ecdsa_type h hc⟩))
      | some curve =>
        obtain ⟨res, hres⟩ : ∃ res : Int × List Nat, res =
            (if E.FEATURE_PERIPH_HWRNG then
              E.uECC_sign rng key_value
                (mem_store (List.replicate 32 0) 0
                  (E.sha256 (signer.input_value.take signer.input_size))) 32 curve
            else
              E.uECC_sign_deterministic key_value
                (mem_store (List.replicate 32 0) 0
                  (E.sha256 (signer.input_value.take signer.input_size))) 32
                (HashContext E) curve) := ⟨_, rfl⟩
        by_cases hr : res.1 = 0
        · refine Or.inr (Or.inr (Or.inr (Or.inl ⟨h, rfl, curve, res.2, rfl, ?_⟩)))
          simp only [ndn_signer_ecdsa_sign, h, hc, ← hres, hr, if_false, if_true, ne_eq,
            not_true_eq_false]
        · refine Or.inr (Or.inr (Or.inr (Or.inr ⟨h, rfl, curve, res.2, rfl, ?_⟩)))
          simp only [ndn_signer_ecdsa_sign, h, hc, ← hres, hr, if_false, ne_eq,
            not_true_eq_false]

/-! ## Shape of the three verify operations -/

theorem sha256_verify_outcome (E : Platform) (verifier : ndn_verifier_t) :
    (verifier.sig_size ≠ 32 ∧
      ndn_verifier_sha256_verify E verifier = E.NDN_ERROR_WRONG_SIG_SIZE) ∨
    (verifier.sig_size = 32 ∧
      memcmp (mem_store (List.replicate 32 0) 0
        (E.sha256 (verifier.input_value.take verifier.input_size))) verifier.sig_value 32 ≠ 0 ∧
      ndn_verifier_sha256_verify E verifier = -1) ∨
    (verifier.sig_size = 32 ∧
      memcmp (mem_store (List.replicate 32 0) 0
        (E.sha256 (verifier.input_value.take verifier.input_size))) verifier.sig_value 32 = 0 ∧
      ndn_verifier_sha256_verify E verifier = 0) := by
  unfold ndn_verifier_sha256_verify
  by_cases hs : verifier.sig_size = 32
  · by_cases hm : memcmp (mem_store (List.replicate 32 0) 0
        (E.sha256 (verifier.input_value.take verifier.input_size))) verifier.sig_value 32 = 0
    · exact Or.inr (Or.inr ⟨hs, hm, by simp only [hs, hm, ne_eq, not_true_eq_false, not_false_eq_true, if_false, if_true]⟩)
    · exact Or.inr (Or.inl ⟨hs, hm, by simp only [hs, hm, ne_eq, not_true_eq_false, not_false_eq_true, if_false, if_true]⟩)
  · exact Or.inl ⟨hs, by simp [hs]⟩

theorem hmac_verify_outcome (E : Platform) (verifier : ndn_verifier_t)
    (key_value : List Nat) (key_size : Nat) :
    (verifier.sig_size ≠ 32 ∧
      ndn_verifier_hmac_verify E verifier key_value key_size
        = E.NDN_ERROR_WRONG_SIG_SIZE) ∨
    (verifier.sig_size = 32 ∧ key_size ≠ 32 ∧
      ndn_verifier_hmac_verify E verifier key_value key_size
        = E.NDN_ERROR_WRONG_KEY_SIZE) ∨
    (verifier.sig_size = 32 ∧ key_size = 32 ∧
      memcmp (mem_store (List.replicate 32 0) 0
        (E.hmac_sha256 (key_value.take key_size)
          (verifier.input_value.take verifier.input_size))) verifier.sig_value 32 ≠ 0 ∧
      ndn_verifier_hmac_verify E verifier key_value key_size = -1) ∨
    (verifier.sig_size = 32 ∧ key_size = 32 ∧
      memcmp (mem_store (List.replicate 32 0) 0
        (E.hmac_sha256 (key_value.take key_size)
          (verifier.input_value.take verifier.input_size))) verifier.sig_value 32 = 0 ∧
      ndn_verifier_hmac_verify E verifier key_value key_size = 0) := by
  unfold ndn_verifier_hmac_verify
  by_cases hs : verifier.sig_size = 32
  · by_cases hk : key_size = 32
    · subst hk
      by_cases hm : memcmp (mem_store (List.replicate 32 0) 0
        (E.hmac_sha256 (key_value.take 32)
          (verifier.input_value.take verifier.input_size))) verifier.sig_value 32 = 0
      · exact Or.inr (Or.inr (Or.inr ⟨hs, rfl, hm, by simp only [hs, hm, ne_eq, not_true_eq_false, not_false_eq_true, if_false, if_true]⟩))
      · exact Or.inr (Or.inr (Or.inl ⟨hs, rfl, hm, by simp only [hs, hm, ne_eq, not_true_eq_false, not_false_eq_true, if_false, if_true]⟩))
    · exact Or.inr (Or.inl ⟨hs, hk, by simp [hs, hk]⟩)
  · exact Or.inl ⟨hs, by simp [hs]⟩

theorem ecdsa_verify_outcome (E : Platform) (verifier : ndn_verifier_t)
    (key_value : List Nat) (key_size ecdsa_type : Nat) :
    (verifier.sig_size ≠ 64 ∧
      ndn_verifier_ecdsa_verify E verifier key_value key_size ecdsa_type
        = E.NDN_ERROR_WRONG_SIG_SIZE) ∨
    (verifier.sig_size = 64 ∧ key_size ≠ 64 ∧
      ndn_verifier_ecdsa_verify E verifier key_value key_size ecdsa_type
        = E.NDN_ERROR_WRONG_KEY_SIZE) ∨
    (verifier.sig_size = 64 ∧ key_size = 64 ∧
      ndn_verifier_ecdsa_verify_curve E ecdsa_type = none ∧
      ndn_verifier_ecdsa_verify E verifier key_value key_size ecdsa_type
        = E.NDN_ERROR_UNSUPPORT_CRYPTO_ALGO) ∨
    (verifier.sig_size = 64 ∧ key_size = 64 ∧
      ∃ curve, ndn_verifier_ecdsa_verify_curve E ecdsa_type = some curve ∧
        E.uECC_verify key_value
          (mem_store (List.replicate 32 0) 0
            (E.sha256 (verifier.input_value.take verifier.input_size)))
          32 verifier.sig_value curve = 0 ∧
        ndn_verifier_ecdsa_verify E verifier key_value key_size ecdsa_type = -1) ∨
    (verifier.sig_size = 64 ∧ key_size = 64 ∧
      ∃ curve, ndn_verifier_ecdsa_verify_curve E ecdsa_type = some curve ∧
        E.uECC_verify key_value
          (mem_store (List.replicate 32 0) 0
            (E.sha256 (verifier.input_value.take verifier.input_size)))
          32 verifier.sig_value curve ≠ 0 ∧
        ndn_verifier_ecdsa_verify E verifier key_value key_size ecdsa_type = 0) := by
  unfold ndn_verifier_ecdsa_verify
  by_cases hs : verifier.sig_size = 64
  · by_cases hk : key_size = 64
    · cases hc : ndn_verifier_ecdsa_verify_curve E ecdsa_type with
      | none => exact Or.inr (Or.inr (Or.inl ⟨hs, hk, rfl, by simp [hs, hk]⟩))
      | some curve =>
        by_cases hv : E.uECC_verify key_value
          (mem_store (List.replicate 32 0) 0
            (E.sha256 (verifier.input_value.take verifier.input_size)))
          32 verifier.sig_value curve = 0
        · exact Or.inr (Or.inr (Or.inr (Or.inl
            ⟨hs, hk, curve, rfl, hv, by simp only [hs, hk, hv, if_true, ne_eq,
              not_true_eq_false, if_false]⟩)))
        · exact Or.inr (Or.inr (Or.inr (Or.inr
            ⟨hs, hk, curve, rfl, hv, by simp only [hs, hk, hv, ne_eq,
              not_true_eq_false, if_false]⟩)))
    · exact Or.inr (Or.inl ⟨hs, hk, by simp [hs, hk]⟩)
  · exact Or.inl ⟨hs, by simp [hs]⟩

/-! ## Where the tag is stored (C1) -/

/-- Every successful `ndn_signer_sha256_sign` stores its tag at the base of the output
region, whatever the cursor is: the bytes from offset `32` on are the old ones. -/
theorem sha256_sign_stores_at_base (E : Platform) (hE : E.DigestSized) (signer : ndn_signer_t)
    (h : (ndn_signer_sha256_sign E signer).1 = 0) (hz : E.NDN_ERROR_OVERSIZE ≠ 0) :
    (ndn_signer_sha256_sign E signer).2.output_value.take 32
        = E.sha256 (signer.input_value.take signer.input_size) ∧
    (ndn_signer_sha256_sign E signer).2.output_value.drop 32
        = signer.output_value.drop 32 := by
  by_cases hc : u32 (signer.output_used_size + 32) > signer.output_max_size
  · rw [sha256_sign_reject E signer hc] at h
    exact absurd h hz
  · rw [sha256_sign_accept E signer hc]
    simp [mem_store, hE.1]

/-- C1, evaluation of the code at the failing input: on a fresh signer over a zeroed 64-byte
output region, a successful `ndn_signer_sha256_sign` followed by a successful
`ndn_signer_hmac_sign` moves the cursor to 32 and then to 64, but the region ends up as the
second tag followed by 32 zero bytes: the second tag was stored at offset 0, over the first
tag, and nothing was stored at offsets 32 to 63. -/
theorem C1_second_tag_stored_at_base (E : Platform) (hE : E.DigestSized) :
    (ndn_signer_sha256_sign E (sample_signer 64 0)).1 = 0 ∧
    (ndn_signer_sha256_sign E (sample_signer 64 0)).2.output_used_size = 32 ∧
    (ndn_signer_hmac_sign E (ndn_signer_sha256_sign E (sample_signer 64 0)).2
        sample_key 32).1 = 0 ∧
    (ndn_signer_hmac_sign E (ndn_signer_sha256_sign E (sample_signer 64 0)).2
        sample_key 32).2.output_used_size = 64 ∧
    (ndn_signer_hmac_sign E (ndn_signer_sha256_sign E (sample_signer 64 0)).2
        sample_key 32).2.output_value
      = E.hmac_sha256 sample_key [1, 2, 3] ++ List.replicate 32 0 := by
  have h1 : ¬ u32 ((sample_signer 64 0).output_used_size + 32)
      > (sample_signer 64 0).output_max_size := by
    simp [sample_signer, u32]
  rw [sha256_sign_accept E _ h1]
  have h2 : ¬ u32 (u32 ((sample_signer 64 0).output_used_size + 32) + 32)
      > (sample_signer 64 0).output_max_size := by
    simp [sample_signer, u32]
  rw [hmac_sign_accept E _ sample_key h2]
  simp [sample_signer, u32, mem_store, hE.1, hE.2, sample_key]

/-- C1, the evaluation on the sample platform. -/
theorem C1_second_tag_stored_at_base_witness :
    samplePlatform.DigestSized ∧
    (ndn_signer_hmac_sign samplePlatform
        (ndn_signer_sha256_sign samplePlatform (sample_signer 64 0)).2
        sample_key 32).2.output_value
      = samplePlatform.hmac_sha256 sample_key [1, 2, 3] ++ List.replicate 32 0 :=
  ⟨sample_digest_sized,
    (C1_second_tag_stored_at_base samplePlatform sample_digest_sized).2.2.2.2⟩

/-! ## The cursor and the capacity check in `uint32_t` arithmetic (C2, C3) -/

theorem u32_of_lt (n : Nat) (h : n < 4294967296) : u32 n = n :=
  Nat.mod_eq_of_lt h

theorem codes_ne_zero (E : Platform) (hz : E.ErrorCodesDistinct) :
    E.NDN_ERROR_OVERSIZE ≠ 0 ∧ E.NDN_ERROR_WRONG_KEY_SIZE ≠ 0 ∧
    E.NDN_ERROR_WRONG_SIG_SIZE ≠ 0 ∧ E.NDN_ERROR_CRYPTO_ALGO_FAILURE ≠ 0 ∧
    E.NDN_ERROR_UNSUPPORT_CRYPTO_ALGO ≠ 0 := by
  simp only [Platform.ErrorCodesDistinct, List.nodup_cons, List.mem_cons] at hz
  refine ⟨?_, ?_, ?_, ?_, ?_⟩ <;> intro h <;> simp [h] at hz

/-- A call of a sign operation that returns `0` passed the capacity check of the operation
and left the cursor advanced by the tag length in `uint32_t` arithmetic. -/
theorem sign_success (E : Platform) (hz : E.ErrorCodesDistinct) (signer : ndn_signer_t)
    (op : SignOp) (h0 : (op.run E signer).1 = 0) :
    ¬ u32 (signer.output_used_size + op.tag_length) > signer.output_max_size ∧
    (op.run E signer).2.output_used_size = u32 (signer.output_used_size + op.tag_length) := by
  obtain ⟨z1, z2, _, z4, z5⟩ := codes_ne_zero E hz
  cases op with
  | sha256 =>
    simp only [SignOp.run, SignOp.tag_length] at *
    by_cases hc : u32 (signer.output_used_size + 32) > signer.output_max_size
    · rw [sha256_sign_reject E signer hc] at h0
      exact absurd h0 z1
    · rw [sha256_sign_accept E signer hc]
      exact ⟨hc, rfl⟩
  | ecdsa rng key_value key_size ecdsa_type =>
    simp only [SignOp.run, SignOp.tag_length] at *
    rcases ecdsa_sign_outcome E rng signer key_value key_size ecdsa_type with
      ⟨_, h⟩ | ⟨_, _, h⟩ | ⟨_, _, _, h⟩ | ⟨_, _, _, _, _, h⟩ | ⟨hc, _, _, _, _, h⟩
    · rw [h] at h0; exact absurd h0 z1
    · rw [h] at h0; exact absurd h0 z2
    · rw [h] at h0; exact absurd h0 z5
    · rw [h] at h0; exact absurd h0 z4
    · rw [h]; exact ⟨hc, rfl⟩
  | hmac key_value key_size =>
    simp only [SignOp.run, SignOp.tag_length] at *
    by_cases hc : u32 (signer.output_used_size + 32) > signer.output_max_size
    · rw [hmac_sign_reject E signer key_value key_size hc] at h0
      exact absurd h0 z1
    · by_cases hk : key_size ≠ 32
      · rw [hmac_sign_wrong_key E signer key_value key_size hc hk] at h0
        exact absurd h0 z2
      · have hk32 : key_size = 32 := by simpa using hk
        subst hk32
        rw [hmac_sign_accept E signer key_value hc]
        exact ⟨hc, rfl⟩

/-- Without wrap-around, a successful sign call advances the cursor by exactly the tag
length of the operation. -/
theorem sign_advances_without_wrap (E : Platform) (hz : E.ErrorCodesDistinct)
    (signer : ndn_signer_t) (op : SignOp)
    (hw : signer.output_used_size + op.tag_length < 4294967296)
    (h0 : (op.run E signer).1 = 0) :
    (op.run E signer).2.output_used_size = signer.output_used_size + op.tag_length := by
  rw [(sign_success E hz signer op h0).2, u32_of_lt _ hw]

/-- The result code of a call that fails the capacity check, and the fact that no other
call returns it. -/
theorem sign_oversize_iff_check (E : Platform) (hz : E.ErrorCodesDistinct)
    (signer : ndn_signer_t) (op : SignOp) :
    (op.run E signer).1 = E.NDN_ERROR_OVERSIZE ↔
      u32 (signer.output_used_size + op.tag_length) > signer.output_max_size := by
  have hd := hz
  simp only [Platform.ErrorCodesDistinct, List.nodup_cons, List.mem_cons] at hd
  cases op with
  | sha256 =>
    simp only [SignOp.run, SignOp.tag_length]
    by_cases hc : u32 (signer.output_used_size + 32) > signer.output_max_size
    · simp [sha256_sign_reject E signer hc, hc]
    · simp only [sha256_sign_accept E signer hc, hc, iff_false]
      intro h; simp [← h] at hd
  | ecdsa rng key_value key_size ecdsa_type =>
    simp only [SignOp.run, SignOp.tag_length]
    rcases ecdsa_sign_outcome E rng signer key_value key_size ecdsa_type with
      ⟨hc, h⟩ | ⟨hc, _, h⟩ | ⟨hc, _, _, h⟩ | ⟨hc, _, _, _, _, h⟩ | ⟨hc, _, _, _, _, h⟩
    · simp [h, hc]
    all_goals
      simp only [h, hc, iff_false]
      intro h; simp [← h] at hd
  | hmac key_value key_size =>
    simp only [SignOp.run, SignOp.tag_length]
    by_cases hc : u32 (signer.output_used_size + 32) > signer.output_max_size
    · simp [hmac_sign_reject E signer key_value key_size hc, hc]
    · by_cases hk : key_size ≠ 32
      · simp only [hmac_sign_wrong_key E signer key_value key_size hc hk, hc, iff_false]
        intro h; simp [← h] at hd
      · have hk32 : key_size = 32 := by simpa using hk
        subst hk32
        simp only [hmac_sign_accept E signer key_value hc, hc, iff_false]
        intro h; simp [← h] at hd

/-- Without wrap-around and with the cursor within the capacity, the capacity check fails
exactly when fewer than tag-length bytes remain. -/
theorem sign_oversize_iff_without_wrap (E : Platform) (hz : E.ErrorCodesDistinct)
    (signer : ndn_signer_t) (op : SignOp)
    (hinv : signer.output_used_size ≤ signer.output_max_size)
    (hw : signer.output_used_size + op.tag_length < 4294967296) :
    (op.run E signer).1 = E.NDN_ERROR_OVERSIZE ↔
      signer.output_max_size - signer.output_used_size < op.tag_length := by
  rw [sign_oversize_iff_check E hz signer op, u32_of_lt _ hw]
  omega

/-- C2, evaluation of the code at the failing input: with the cursor at `2^32 - 32` and the
capacity `2^32 - 1` (so cursor <= capacity), `ndn_signer_sha256_sign` and
`ndn_signer_hmac_sign` with a 32-byte key return `0` and leave the cursor at `0`: the sum
`output_used_size + 32` was reduced modulo `2^32` and the cursor decreased. -/
theorem C2_cursor_wraps_to_zero (E : Platform) (input_value output_value key_value : List Nat)
    (input_size : Nat) :
    (ndn_signer_sha256_sign E
        { input_value := input_value, input_size := input_size, output_value := output_value,
          output_max_size := 4294967295, output_used_size := 4294967264 }).1 = 0 ∧
    (ndn_signer_sha256_sign E
        { input_value := input_value, input_size := input_size, output_value := output_value,
          output_max_size := 4294967295,
          output_used_size := 4294967264 }).2.output_used_size = 0 ∧
    (ndn_signer_hmac_sign E
        { input_value := input_value, input_size := input_size, output_value := output_value,
          output_max_size := 4294967295, output_used_size := 4294967264 }
        key_value 32).1 = 0 ∧
    (ndn_signer_hmac_sign E
        { input_value := input_value, input_size := input_size, output_value := output_value,
          output_max_size := 4294967295, output_used_size := 4294967264 }
        key_value 32).2.output_used_size = 0 := by
  simp [ndn_signer_sha256_sign, ndn_signer_hmac_sign, u32]

/-- C3, evaluation of the code at the failing input: with the cursor at `2^32 - 32` and the
capacity `2^32 - 1`, only 31 bytes remain, fewer than the 32-byte tag, yet the capacity
check of `ndn_signer_sha256_sign` and of `ndn_signer_hmac_sign` passes (the sum wraps to
`0`) and the call returns `0` instead of `NDN_ERROR_OVERSIZE`. -/
theorem C3_no_oversize_after_wrap (E : Platform) (input_value output_value key_value : List Nat)
    (input_size : Nat) :
    (4294967295 : Nat) - 4294967264 < SignOp.sha256.tag_length ∧
    ¬ u32 (4294967264 + 32) > 4294967295 ∧
    SignOp.sha256.run E
        { input_value := input_value, input_size := input_size, output_value := output_value,
          output_max_size := 4294967295, output_used_size := 4294967264 }
      = (0, { input_value := input_value, input_size := input_size,
              output_value :=
                mem_store output_value 0 (E.sha256 (input_value.take input_size)),
              output_max_size := 4294967295, output_used_size := 0 }) ∧
    ((SignOp.hmac key_value 32).run E
        { input_value := input_value, input_size := input_size, output_value := output_value,
          output_max_size := 4294967295, output_used_size := 4294967264 }).1 = 0 := by
  simp [SignOp.run, SignOp.tag_length, ndn_signer_sha256_sign, ndn_signer_hmac_sign, u32]

/-! ## Failed calls and the cursor (C6), the capacity invariant (C10) -/

/-- C6: for each of the three sign operations and every input, a call that returns a
non-zero result leaves `output_used_size` at its value before the call. -/
theorem C6_failed_sign_keeps_cursor (E : Platform) (signer : ndn_signer_t) (op : SignOp)
    (h : (op.run E signer).1 ≠ 0) :
    (op.run E signer).2.output_used_size = signer.output_used_size := by
  cases op with
  | sha256 =>
    simp only [SignOp.run] at *
    by_cases hc : u32 (signer.output_used_size + 32) > signer.output_max_size
    · rw [sha256_sign_reject E signer hc]
    · rw [sha256_sign_accept E signer hc] at h
      exact absurd rfl h
  | ecdsa rng key_value key_size ecdsa_type =>
    simp only [SignOp.run] at *
    rcases ecdsa_sign_outcome E rng signer key_value key_size ecdsa_type with
      ⟨_, e⟩ | ⟨_, _, e⟩ | ⟨_, _, _, e⟩ | ⟨_, _, _, _, _, e⟩ | ⟨_, _, _, _, _, e⟩
    · rw [e]
    · rw [e]
    · rw [e]
    · rw [e]
    · rw [e] at h
      exact absurd rfl h
  | hmac key_value key_size =>
    simp only [SignOp.run] at *
    by_cases hc : u32 (signer.output_used_size + 32) > signer.output_max_size
    · rw [hmac_sign_reject E signer key_value key_size hc]
    · by_cases hk : key_size ≠ 32
      · rw [hmac_sign_wrong_key E signer key_value key_size hc hk]
      · have hk32 : key_size = 32 := by simpa using hk
        subst hk32
        rw [hmac_sign_accept E signer key_value hc] at h
        exact absurd rfl h

/-- C6 on the sample platform: `ndn_signer_hmac_sign` with a 31-byte key on a signer whose
cursor is at 32 returns a non-zero result and leaves the cursor at 32. -/
theorem C6_failed_sign_keeps_cursor_witness :
    ((SignOp.hmac sample_key 31).run samplePlatform (sample_signer 64 32)).1 ≠ 0 ∧
    ((SignOp.hmac sample_key 31).run samplePlatform (sample_signer 64 32)).2.output_used_size
      = (sample_signer 64 32).output_used_size :=
  ⟨by decide,
    C6_failed_sign_keeps_cursor samplePlatform (sample_signer 64 32)
      (SignOp.hmac sample_key 31) (by decide)⟩

/-- C10: `output_used_size <= output_max_size` is preserved by every call of each of the
three sign operations, whether the call succeeds or fails, wrap-around included. -/
theorem C10_cursor_within_capacity (E : Platform) (signer : ndn_signer_t) (op : SignOp)
    (hinv : signer.output_used_size ≤ signer.output_max_size) :
    (op.run E signer).2.output_used_size ≤ (op.run E signer).2.output_max_size := by
  cases op with
  | sha256 =>
    simp only [SignOp.run]
    by_cases hc : u32 (signer.output_used_size + 32) > signer.output_max_size
    · rw [sha256_sign_reject E signer hc]; exact hinv
    · rw [sha256_sign_accept E signer hc]; exact Nat.le_of_not_lt hc
  | ecdsa rng key_value key_size ecdsa_type =>
    simp only [SignOp.run]
    rcases ecdsa_sign_outcome E rng signer key_value key_size ecdsa_type with
      ⟨_, e⟩ | ⟨_, _, e⟩ | ⟨_, _, _, e⟩ | ⟨_, _, _, _, _, e⟩ | ⟨hc, _, _, _, _, e⟩
    · rw [e]; exact hinv
    · rw [e]; exact hinv
    · rw [e]; exact hinv
    · rw [e]; exact hinv
    · rw [e]; exact Nat.le_of_not_lt hc
  | hmac key_value key_size =>
    simp only [SignOp.run]
    by_cases hc : u32 (signer.output_used_size + 32) > signer.output_max_size
    · rw [hmac_sign_reject E signer key_value key_size hc]; exact hinv
    · by_cases hk : key_size ≠ 32
      · rw [hmac_sign_wrong_key E signer key_value key_size hc hk]; exact hinv
      · have hk32 : key_size = 32 := by simpa using hk
        subst hk32
        rw [hmac_sign_accept E signer key_value hc]; exact Nat.le_of_not_lt hc

/-- C10 on the sample platform: a successful `ndn_signer_ecdsa_sign` on a 64-byte region
keeps the cursor within the capacity. -/
theorem C10_cursor_within_capacity_witness :
    (sample_signer 64 0).output_used_size ≤ (sample_signer 64 0).output_max_size ∧
    ((SignOp.ecdsa [] sample_key 32 24).run samplePlatform
        (sample_signer 64 0)).2.output_used_size
      ≤ ((SignOp.ecdsa [] sample_key 32 24).run samplePlatform
        (sample_signer 64 0)).2.output_max_size :=
  ⟨by decide,
    C10_cursor_within_capacity samplePlatform (sample_signer 64 0)
      (SignOp.ecdsa [] sample_key 32 24) (by decide)⟩

/-! ## Size errors and the order of the checks (C4, C5) -/

/-- C4, counterexample to the claim as stated: on the sample platform
`ndn_signer_hmac_sign` with a 31-byte key on a full output region (capacity 32, cursor 32)
returns `NDN_ERROR_OVERSIZE`, not `NDN_ERROR_WRONG_KEY_SIZE`; and `ndn_verifier_hmac_verify`
with a 31-byte key and a 31-byte signature returns `NDN_ERROR_WRONG_SIG_SIZE`, not
`NDN_ERROR_WRONG_KEY_SIZE`. -/
theorem C4_wrong_key_masked_by_earlier_check :
    (ndn_signer_hmac_sign samplePlatform (sample_signer 32 32) sample_key 31).1
      = samplePlatform.NDN_ERROR_OVERSIZE ∧
    (ndn_signer_hmac_sign samplePlatform (sample_signer 32 32) sample_key 31).1
      ≠ samplePlatform.NDN_ERROR_WRONG_KEY_SIZE ∧
    ndn_verifier_hmac_verify samplePlatform (sample_verifier 31) sample_key 31
      = samplePlatform.NDN_ERROR_WRONG_SIG_SIZE ∧
    ndn_verifier_hmac_verify samplePlatform (sample_verifier 31) sample_key 31
      ≠ samplePlatform.NDN_ERROR_WRONG_KEY_SIZE := by
  decide

/-- C4 as amended: a keyed operation returns `NDN_ERROR_WRONG_KEY_SIZE` exactly when the
check that precedes the key check passes (the capacity check for the two sign operations,
the signature-size check for the two verify operations) and the key length differs from the
fixed requirement (32, 32, 32, 64); every verify operation returns
`NDN_ERROR_WRONG_SIG_SIZE` exactly when the signature length differs from the fixed tag
length (32, 32, 64). -/
theorem C4_size_errors (E : Platform) (hz : E.ErrorCodesDistinct) (rng : List Nat)
    (signer : ndn_signer_t) (verifier : ndn_verifier_t) (key_value : List Nat)
    (key_size ecdsa_type : Nat) :
    ((ndn_signer_hmac_sign E signer key_value key_size).1 = E.NDN_ERROR_WRONG_KEY_SIZE ↔
      ¬ u32 (signer.output_used_size + 32) > signer.output_max_size ∧ key_size ≠ 32) ∧
    ((ndn_signer_ecdsa_sign E rng signer key_value key_size ecdsa_type).1
        = E.NDN_ERROR_WRONG_KEY_SIZE ↔
      ¬ u32 (signer.output_used_size + 64) > signer.output_max_size ∧ key_size ≠ 32) ∧
    (ndn_verifier_hmac_verify E verifier key_value key_size = E.NDN_ERROR_WRONG_KEY_SIZE ↔
      verifier.sig_size = 32 ∧ key_size ≠ 32) ∧
    (ndn_verifier_ecdsa_verify E verifier key_value key_size ecdsa_type
        = E.NDN_ERROR_WRONG_KEY_SIZE ↔
      verifier.sig_size = 64 ∧ key_size ≠ 64) ∧
    (ndn_verifier_sha256_verify E verifier = E.NDN_ERROR_WRONG_SIG_SIZE ↔
      verifier.sig_size ≠ 32) ∧
    (ndn_verifier_hmac_verify E verifier key_value key_size = E.NDN_ERROR_WRONG_SIG_SIZE ↔
      verifier.sig_size ≠ 32) ∧
    (ndn_verifier_ecdsa_verify E verifier key_value key_size ecdsa_type
        = E.NDN_ERROR_WRONG_SIG_SIZE ↔
      verifier.sig_size ≠ 64) := by
  have hd := hz
  simp only [Platform.ErrorCodesDistinct, List.nodup_cons, List.mem_cons] at hd
  refine ⟨?_, ?_, ?_, ?_, ?_, ?_, ?_⟩
  · by_cases hc : u32 (signer.output_used_size + 32) > signer.output_max_size
    · simp only [hmac_sign_reject E signer key_value key_size hc, hc, not_true_eq_false,
        false_and, iff_false]
      intro h; simp [h] at hd
    · by_cases hk : key_size ≠ 32
      · simp [hmac_sign_wrong_key E signer key_value key_size hc hk, hc, hk]
      · have hk32 : key_size = 32 := by simpa using hk
        subst hk32
        simp only [hmac_sign_accept E signer key_value hc, ne_eq, not_true_eq_false,
          and_false, iff_false]
        intro h; simp [← h] at hd
  · rcases ecdsa_sign_outcome E rng signer key_value key_size ecdsa_type with
      ⟨hc, e⟩ | ⟨hc, hk, e⟩ | ⟨hc, hk, _, e⟩ | ⟨hc, hk, _, _, _, e⟩ | ⟨hc, hk, _, _, _, e⟩
    · simp only [e, hc, not_true_eq_false, false_and, iff_false]
      intro h; simp [h] at hd
    · simp [e, hc, hk]
    · subst hk
      rw [e]
      simp only [ne_eq, not_true_eq_false, and_false, iff_false]
      intro h; simp [← h] at hd
    · subst hk
      rw [e]
      simp only [ne_eq, not_true_eq_false, and_false, iff_false]
      intro h; simp [← h] at hd
    · subst hk
      rw [e]
      simp only [ne_eq, not_true_eq_false, and_false, iff_false]
      intro h; simp [← h] at hd
  · rcases hmac_verify_outcome E verifier key_value key_size with
      ⟨hs, e⟩ | ⟨hs, hk, e⟩ | ⟨hs, hk, _, e⟩ | ⟨hs, hk, _, e⟩
    · rw [e]; simp only [hs, false_and, iff_false]
      intro h; simp [h] at hd
    · rw [e]; simp [hs, hk]
    · rw [e]; simp only [hk, ne_eq, not_true_eq_false, and_false, iff_false]
      intro h; simp [← h] at hd
    · rw [e]; simp only [hk, ne_eq, not_true_eq_false, and_false, iff_false]
      intro h; simp [← h] at hd
  · rcases ecdsa_verify_outcome E verifier key_value key_size ecdsa_type with
      ⟨hs, e⟩ | ⟨hs, hk, e⟩ | ⟨hs, hk, _, e⟩ | ⟨hs, hk, _, _, _, e⟩ | ⟨hs, hk, _, _, _, e⟩
    · rw [e]; simp only [hs, false_and, iff_false]
      intro h; simp [h] at hd
    · rw [e]; simp [hs, hk]
    · rw [e]; simp only [hk, ne_eq, not_true_eq_false, and_false, iff_false]
      intro h; simp [← h] at hd
    · rw [e]; simp only [hk, ne_eq, not_true_eq_false, and_false, iff_false]
      intro h; simp [← h] at hd
    · rw [e]; simp only [hk, ne_eq, not_true_eq_false, and_false, iff_false]
      intro h; simp [← h] at hd
  · rcases sha256_verify_outcome E verifier with ⟨hs, e⟩ | ⟨hs, _, e⟩ | ⟨hs, _, e⟩
    · rw [e]; simp [hs]
    · rw [e]; simp only [hs, ne_eq, not_true_eq_false, iff_false]
      intro h; simp [← h] at hd
    · rw [e]; simp only [hs, ne_eq, not_true_eq_false, iff_false]
      intro h; simp [← h] at hd
  · rcases hmac_verify_outcome E verifier key_value key_size with
      ⟨hs, e⟩ | ⟨hs, _, e⟩ | ⟨hs, _, _, e⟩ | ⟨hs, _, _, e⟩
    · rw [e]; simp [hs]
    · rw [e]; simp only [hs, ne_eq, not_true_eq_false, iff_false]
      intro h; simp [h] at hd
    · rw [e]; simp only [hs, ne_eq, not_true_eq_false, iff_false]
      intro h; simp [← h] at hd
    · rw [e]; simp only [hs, ne_eq, not_true_eq_false, iff_false]
      intro h; simp [← h] at hd
  · rcases ecdsa_verify_outcome E verifier key_value key_size ecdsa_type with
      ⟨hs, e⟩ | ⟨hs, _, e⟩ | ⟨hs, _, _, e⟩ | ⟨hs, _, _, _, _, e⟩ | ⟨hs, _, _, _, _, e⟩
    · rw [e]; simp [hs]
    · rw [e]; simp only [hs, ne_eq, not_true_eq_false, iff_false]
      intro h; simp [h] at hd
    · rw [e]; simp only [hs, ne_eq, not_true_eq_false, iff_false]
      intro h; simp [← h] at hd
    · rw [e]; simp only [hs, ne_eq, not_true_eq_false, iff_false]
      intro h; simp [← h] at hd
    · rw [e]; simp only [hs, ne_eq, not_true_eq_false, iff_false]
      intro h; simp [← h] at hd

/-- C4 as amended, on the sample platform: `ndn_signer_hmac_sign` with a 31-byte key on a
fresh 32-byte output region returns `NDN_ERROR_WRONG_KEY_SIZE`. -/
theorem C4_size_errors_witness :
    samplePlatform.ErrorCodesDistinct ∧
    (ndn_signer_hmac_sign samplePlatform (sample_signer 32 0) sample_key 31).1
      = samplePlatform.NDN_ERROR_WRONG_KEY_SIZE :=
  ⟨sample_codes_distinct,
    (C4_size_errors samplePlatform sample_codes_distinct [] (sample_signer 32 0)
      (sample_verifier 32) sample_key 31 0).1.mpr ⟨by decide, by decide⟩⟩

/-- C5, counterexample to the claim as stated: on the sample platform, with the curve
identifier `0` (none of the five), `ndn_signer_ecdsa_sign` returns `NDN_ERROR_OVERSIZE` on
a 32-byte output region and `NDN_ERROR_WRONG_KEY_SIZE` for a 31-byte key, not
`NDN_ERROR_UNSUPPORT_CRYPTO_ALGO`: the curve check is not the first check. -/
theorem C5_curve_check_is_not_first :
    ndn_signer_ecdsa_sign_curve samplePlatform 0 = none ∧
    (ndn_signer_ecdsa_sign samplePlatform [] (sample_signer 32 0) sample_key 32 0).1
      = samplePlatform.NDN_ERROR_OVERSIZE ∧
    (ndn_signer_ecdsa_sign samplePlatform [] (sample_signer 32 0) sample_key 32 0).1
      ≠ samplePlatform.NDN_ERROR_UNSUPPORT_CRYPTO_ALGO ∧
    (ndn_signer_ecdsa_sign samplePlatform [] (sample_signer 64 0) sample_key 31 0).1
      = samplePlatform.NDN_ERROR_WRONG_KEY_SIZE ∧
    (ndn_signer_ecdsa_sign samplePlatform [] (sample_signer 64 0) sample_key 31 0).1
      ≠ samplePlatform.NDN_ERROR_UNSUPPORT_CRYPTO_ALGO := by
  decide

/-- C5 as amended: for every signer state, key, key size and every curve identifier other
than the five supported ones, `ndn_signer_ecdsa_sign` leaves the signer (and so
`output_used_size`) unchanged and returns `NDN_ERROR_OVERSIZE` when the capacity check
fails, otherwise `NDN_ERROR_WRONG_KEY_SIZE` when the key size is not 32, and otherwise
`NDN_ERROR_UNSUPPORT_CRYPTO_ALGO`: the curve check is the last of the three checks. -/
theorem C5_unsupported_curve (E : Platform) (rng : List Nat) (signer : ndn_signer_t)
    (key_value : List Nat) (key_size ecdsa_type : Nat)
    (h1 : ecdsa_type ≠ E.NDN_ECDSA_CURVE_SECP160R1)
    (h2 : ecdsa_type ≠ E.NDN_ECDSA_CURVE_SECP192R1)
    (h3 : ecdsa_type ≠ E.NDN_ECDSA_CURVE_SECP224R1)
    (h4 : ecdsa_type ≠ E.NDN_ECDSA_CURVE_SECP256R1)
    (h5 : ecdsa_type ≠ E.NDN_ECDSA_CURVE_SECP256K1) :
    ndn_signer_ecdsa_sign E rng signer key_value key_size ecdsa_type =
      (if u32 (signer.output_used_size + 64) > signer.output_max_size then
          E.NDN_ERROR_OVERSIZE
        else if key_size ≠ 32 then E.NDN_ERROR_WRONG_KEY_SIZE
        else E.NDN_ERROR_UNSUPPORT_CRYPTO_ALGO,
        signer) := by
  have hc : ndn_signer_ecdsa_sign_curve E ecdsa_type = none := by
    simp [ndn_signer_ecdsa_sign_curve, h1, h2, h3, h4, h5]
  by_cases h : u32 (signer.output_used_size + 64) > signer.output_max_size
  · rw [ecdsa_sign_reject E rng signer key_value key_size ecdsa_type h, if_pos h]
  · by_cases hk : key_size ≠ 32
    · rw [ecdsa_sign_wrong_key E rng signer key_value key_size ecdsa_type h hk, if_neg h,
        if_pos hk]
    · have hk32 : key_size = 32 := by simpa using hk
      subst hk32
      rw [ecdsa_sign_no_curve E rng signer key_value ecdsa_type h hc, if_neg h, if_neg hk]

/-- C5 as amended, on the sample platform: with room for 64 bytes and a 32-byte key, the
curve identifier `0` yields `NDN_ERROR_UNSUPPORT_CRYPTO_ALGO` and an unchanged signer. -/
theorem C5_unsupported_curve_witness :
    ndn_signer_ecdsa_sign samplePlatform [] (sample_signer 64 0) sample_key 32 0
      = (samplePlatform.NDN_ERROR_UNSUPPORT_CRYPTO_ALGO, sample_signer 64 0) :=
  (C5_unsupported_curve samplePlatform [] (sample_signer 64 0) sample_key 32 0
    (by decide) (by decide) (by decide) (by decide) (by decide)).trans (by decide)

/-! ## Round trip and tamper detection for the digest and keyed-MAC families (C7, C8, C9) -/

theorem memcmp_self_take (tag rest : List Nat) (h : tag.length = 32) :
    memcmp tag ((tag ++ rest).take 32) 32 = 0 := by
  rw [memcmp_eq_zero_iff 32 _ _ (by omega) (by simp [h])]
  simp [h]

/-- C7: on a fresh signer (cursor 0) with capacity at least 32, `ndn_signer_sha256_sign`
returns 0 and sets the cursor to 32, and `ndn_verifier_sha256_verify` over the same input
with the signature `output[0 .. 32)` returns 0; the same holds for `ndn_signer_hmac_sign`
and `ndn_verifier_hmac_verify` under one 32-byte key. -/
theorem C7_digest_and_hmac_round_trip (E : Platform) (hE : E.DigestSized)
    (input_value : List Nat) (input_size : Nat) (output_value : List Nat)
    (output_max_size : Nat) (key_value : List Nat) (hcap : 32 ≤ output_max_size) :
    (ndn_signer_sha256_sign E
        (fresh_signer input_value input_size output_value output_max_size)).1 = 0 ∧
    (ndn_signer_sha256_sign E
        (fresh_signer input_value input_size output_value output_max_size)).2.output_used_size
      = 32 ∧
    ndn_verifier_sha256_verify E
        (verifier_for input_value input_size
          ((ndn_signer_sha256_sign E
            (fresh_signer input_value input_size output_value
              output_max_size)).2.output_value.take 32)) = 0 ∧
    (ndn_signer_hmac_sign E
        (fresh_signer input_value input_size output_value output_max_size)
        key_value 32).1 = 0 ∧
    (ndn_signer_hmac_sign E
        (fresh_signer input_value input_size output_value output_max_size)
        key_value 32).2.output_used_size = 32 ∧
    ndn_verifier_hmac_verify E
        (verifier_for input_value input_size
          ((ndn_signer_hmac_sign E
            (fresh_signer input_value input_size output_value output_max_size)
            key_value 32).2.output_value.take 32))
        key_value 32 = 0 := by
  have hc : ¬ u32 ((fresh_signer input_value input_size output_value
      output_max_size).output_used_size + 32)
      > (fresh_signer input_value input_size output_value output_max_size).output_max_size := by
    simp only [fresh_signer, u32]
    omega
  rw [sha256_sign_accept E _ hc, hmac_sign_accept E _ key_value hc]
  have hs := hE.1 (input_value.take input_size)
  have hh := hE.2 (key_value.take 32) (input_value.take input_size)
  refine ⟨rfl, by simp [fresh_signer, u32], ?_, rfl, by simp [fresh_signer, u32], ?_⟩
  · simp only [ndn_verifier_sha256_verify, verifier_for, fresh_signer, mem_store_zero,
      mem_store_scratch _ hs]
    rw [memcmp_self_take _ _ hs]
    simp [hs]
  · simp only [ndn_verifier_hmac_verify, verifier_for, fresh_signer, mem_store_zero,
      mem_store_scratch _ hh]
    rw [memcmp_self_take _ _ hh]
    simp [hh]

/-- C7 on the sample platform: the 3-byte input `01 02 03` signed into a 32-byte region. -/
theorem C7_digest_and_hmac_round_trip_witness :
    samplePlatform.DigestSized ∧ 32 ≤ 32 ∧
    (ndn_signer_sha256_sign samplePlatform
        (fresh_signer [1, 2, 3] 3 (List.replicate 32 0) 32)).2.output_used_size = 32 ∧
    ndn_verifier_sha256_verify samplePlatform
        (verifier_for [1, 2, 3] 3
          ((ndn_signer_sha256_sign samplePlatform
            (fresh_signer [1, 2, 3] 3 (List.replicate 32 0) 32)).2.output_value.take 32))
      = 0 :=
  ⟨sample_digest_sized, le_refl 32,
    (C7_digest_and_hmac_round_trip samplePlatform sample_digest_sized [1, 2, 3] 3
      (List.replicate 32 0) 32 sample_key (le_refl 32)).2.1,
    (C7_digest_and_hmac_round_trip samplePlatform sample_digest_sized [1, 2, 3] 3
      (List.replicate 32 0) 32 sample_key (le_refl 32)).2.2.1⟩

/-- C8: `ndn_verifier_sha256_verify` returns `NDN_ERROR_WRONG_SIG_SIZE` when
`sig_size != 32`; when `sig_size = 32` it returns `0` if the 32 signature bytes are equal to
`sha256(input)`, and `-1` if they differ. -/
theorem C8_sha256_verify_result (E : Platform) (hE : E.DigestSized) (verifier : ndn_verifier_t)
    (hlen : verifier.sig_size ≤ verifier.sig_value.length) :
    ndn_verifier_sha256_verify E verifier =
      if verifier.sig_size ≠ 32 then E.NDN_ERROR_WRONG_SIG_SIZE
      else if verifier.sig_value.take 32
          = E.sha256 (verifier.input_value.take verifier.input_size) then 0
      else -1 := by
  have hs := hE.1 (verifier.input_value.take verifier.input_size)
  have key : verifier.sig_size = 32 →
      (memcmp (mem_store (List.replicate 32 0) 0
          (E.sha256 (verifier.input_value.take verifier.input_size))) verifier.sig_value 32 = 0
        ↔ verifier.sig_value.take 32
          = E.sha256 (verifier.input_value.take verifier.input_size)) := by
    intro h32
    rw [mem_store_scratch _ hs, memcmp_eq_zero_iff 32 _ _ (by omega) (by omega),
      ← hs, List.take_length]
    exact eq_comm
  rcases sha256_verify_outcome E verifier with ⟨h, e⟩ | ⟨h, hm, e⟩ | ⟨h, hm, e⟩
  · rw [e, if_pos h]
  · rw [e, if_neg (by simpa using h), if_neg (fun hh => hm ((key h).mpr hh))]
  · rw [e, if_neg (by simpa using h), if_pos ((key h).mp hm)]

/-- C8 on the sample platform: a verifier whose 32 signature bytes are zero is answered with
`-1`. -/
theorem C8_sha256_verify_result_witness :
    samplePlatform.DigestSized ∧
    (sample_verifier 32).sig_size ≤ (sample_verifier 32).sig_value.length ∧
    ndn_verifier_sha256_verify samplePlatform (sample_verifier 32) = -1 :=
  ⟨sample_digest_sized, by decide,
    (C8_sha256_verify_result samplePlatform sample_digest_sized (sample_verifier 32)
      (by decide)).trans (by decide)⟩

theorem flip_bit_length (sig : List Nat) (i j : Nat) :
    (flip_bit sig i j).length = sig.length := by
  simp [flip_bit]

theorem flip_bit_ne (sig : List Nat) (i j : Nat) (hi : i < sig.length) :
    flip_bit sig i j ≠ sig := by
  intro h
  have h1 : (flip_bit sig i j)[i]? = sig[i]? := by rw [h]
  rw [flip_bit, List.getElem?_set_self hi, List.getD_eq_getElem _ _ hi,
    List.getElem?_eq_getElem hi] at h1
  have h2 : sig[i] ^^^ 2 ^ j = sig[i] ^^^ 0 := by
    rw [Nat.xor_zero]; exact Option.some.inj h1
  have h3 : 2 ^ j = 0 := Nat.xor_right_injective h2
  exact absurd h3 (by positivity)

/-- A 32-byte tag compared with a copy in which one bit was flipped: `memcmp` is non-zero. -/
theorem memcmp_flip_bit (tag : List Nat) (i j : Nat) (h : tag.length = 32) (hi : i < 32) :
    memcmp tag (flip_bit tag i j) 32 ≠ 0 := by
  rw [Ne, memcmp_eq_zero_iff 32 _ _ (by omega) (by rw [flip_bit_length]; omega)]
  intro hh
  have e1 : tag.take 32 = tag := by rw [← h, List.take_length]
  have e2 : (flip_bit tag i j).take 32 = flip_bit tag i j := by
    rw [← h, ← flip_bit_length tag i j, List.take_length]
  rw [e1, e2] at hh
  exact flip_bit_ne tag i j (by omega) hh.symm

/-- C9: take the tag that `ndn_signer_sha256_sign` (resp. `ndn_signer_hmac_sign` with a
32-byte key) leaves in `output[0 .. 32)` of a fresh signer with capacity at least 32, and
flip bit `j` (any bit position, so also each `j < 8`) of byte `i < 32`. Then `ndn_verifier_sha256_verify` (resp.
`ndn_verifier_hmac_verify` with the same key) over the same input returns the mismatch
result `-1`, which is neither `0` nor a size error. -/
theorem C9_flipped_signature_is_mismatch (E : Platform) (hE : E.DigestSized)
    (hz : E.ErrorCodesDistinct)
    (input_value : List Nat) (input_size : Nat) (output_value : List Nat)
    (output_max_size : Nat) (key_value : List Nat) (i j : Nat)
    (hcap : 32 ≤ output_max_size) (hi : i < 32) :
    (ndn_verifier_sha256_verify E
        (verifier_for input_value input_size
          (flip_bit ((ndn_signer_sha256_sign E
            (fresh_signer input_value input_size output_value
              output_max_size)).2.output_value.take 32) i j)) = -1 ∧
      ndn_verifier_hmac_verify E
        (verifier_for input_value input_size
          (flip_bit ((ndn_signer_hmac_sign E
            (fresh_signer input_value input_size output_value output_max_size)
            key_value 32).2.output_value.take 32) i j))
        key_value 32 = -1) ∧
    (-1 : Int) ≠ 0 ∧ -1 ≠ E.NDN_ERROR_WRONG_SIG_SIZE ∧ -1 ≠ E.NDN_ERROR_WRONG_KEY_SIZE := by
  have hc : ¬ u32 ((fresh_signer input_value input_size output_value
      output_max_size).output_used_size + 32)
      > (fresh_signer input_value input_size output_value output_max_size).output_max_size := by
    simp only [fresh_signer, u32]
    omega
  have hs := hE.1 (input_value.take input_size)
  have hh := hE.2 (key_value.take 32) (input_value.take input_size)
  have hd := hz
  simp only [Platform.ErrorCodesDistinct, List.nodup_cons, List.mem_cons] at hd
  refine ⟨⟨?_, ?_⟩, by decide, ?_, ?_⟩
  · rw [sha256_sign_accept E _ hc]
    have et : (mem_store output_value 0 (E.sha256 (input_value.take input_size))).take 32
        = E.sha256 (input_value.take input_size) := by
      have ht := mem_store_zero_take output_value (E.sha256 (input_value.take input_size))
      rw [hs] at ht
      exact ht
    simp only [fresh_signer, et]
    rcases sha256_verify_outcome E (verifier_for input_value input_size
        (flip_bit (E.sha256 (input_value.take input_size)) i j)) with
      ⟨h, _⟩ | ⟨_, _, e⟩ | ⟨_, hm, _⟩
    · exact absurd (by simp [verifier_for, flip_bit_length, hs]) h
    · exact e
    · simp only [verifier_for, mem_store_scratch _ hs] at hm
      exact absurd hm (memcmp_flip_bit _ i j hs hi)
  · rw [hmac_sign_accept E _ key_value hc]
    have et : (mem_store output_value 0
        (E.hmac_sha256 (key_value.take 32) (input_value.take input_size))).take 32
        = E.hmac_sha256 (key_value.take 32) (input_value.take input_size) := by
      have ht := mem_store_zero_take output_value
        (E.hmac_sha256 (key_value.take 32) (input_value.take input_size))
      rw [hh] at ht
      exact ht
    simp only [fresh_signer, et]
    rcases hmac_verify_outcome E (verifier_for input_value input_size
        (flip_bit (E.hmac_sha256 (key_value.take 32) (input_value.take input_size)) i j))
        key_value 32 with
      ⟨h, _⟩ | ⟨_, h, _⟩ | ⟨_, _, _, e⟩ | ⟨_, _, hm, _⟩
    · exact absurd (by simp [verifier_for, flip_bit_length, hh]) h
    · exact absurd rfl h
    · exact e
    · simp only [verifier_for, mem_store_scratch _ hh] at hm
      exact absurd hm (memcmp_flip_bit _ i j hh hi)
  · intro h; simp [← h] at hd
  · intro h; simp [← h] at hd

/-- C9 on the sample platform: bit 0 of byte 5 of the digest of `01 02 03` is flipped. -/
theorem C9_flipped_signature_is_mismatch_witness :
    samplePlatform.DigestSized ∧ samplePlatform.ErrorCodesDistinct ∧
    ndn_verifier_sha256_verify samplePlatform
        (verifier_for [1, 2, 3] 3
          (flip_bit ((ndn_signer_sha256_sign samplePlatform
            (fresh_signer [1, 2, 3] 3 (List.replicate 32 0) 32)).2.output_value.take 32)
            5 0)) = -1 :=
  ⟨sample_digest_sized, sample_codes_distinct,
    (C9_flipped_signature_is_mismatch samplePlatform sample_digest_sized
      sample_codes_distinct [1, 2, 3] 3 (List.replicate 32 0) 32 sample_key 5 0
      (le_refl 32) (by decide)).1.1⟩

/-! ## The asymmetric family: dispatch and primitive call (C11, C12, C13) -/

/-- Past its three checks, `ndn_signer_ecdsa_sign` is the call of the signing primitive on
the digest of the input, followed by the test of its result. -/
theorem ecdsa_sign_dispatch (E : Platform) (rng : List Nat) (signer : ndn_signer_t)
    (key_value : List Nat) (ecdsa_type : Nat) (curve : uECC_Curve)
    (h : ¬ u32 (signer.output_used_size + 64) > signer.output_max_size)
    (hc : ndn_signer_ecdsa_sign_curve E ecdsa_type = some curve) :
    ndn_signer_ecdsa_sign E rng signer key_value 32 ecdsa_type =
      if (ecc_sign_call E rng key_value
            (mem_store (List.replicate 32 0) 0
              (E.sha256 (signer.input_value.take signer.input_size))) curve).1 = 0 then
        (E.NDN_ERROR_CRYPTO_ALGO_FAILURE,
          { signer with
            output_value := mem_store signer.output_value 0
              (ecc_sign_call E rng key_value
                (mem_store (List.replicate 32 0) 0
                  (E.sha256 (signer.input_value.take signer.input_size))) curve).2 })
      else
        (0,
          { signer with
            output_value := mem_store signer.output_value 0
              (ecc_sign_call E rng key_value
                (mem_store (List.replicate 32 0) 0
                  (E.sha256 (signer.input_value.take signer.input_size))) curve).2
            output_used_size := u32 (signer.output_used_size + 64) }) := by
  simp only [ndn_signer_ecdsa_sign, ecc_sign_call, h, hc, if_false, ne_eq, not_true_eq_false]

theorem sign_curve_eq_verify_curve (E : Platform) (ecdsa_type : Nat) :
    ndn_signer_ecdsa_sign_curve E ecdsa_type = ndn_verifier_ecdsa_verify_curve E ecdsa_type :=
  rfl

theorem sign_curve_eq_none_iff (E : Platform) (ecdsa_type : Nat) :
    ndn_signer_ecdsa_sign_curve E ecdsa_type = none ↔ ¬ E.SupportedCurve ecdsa_type := by
  unfold ndn_signer_ecdsa_sign_curve Platform.SupportedCurve
  split_ifs <;> simp_all

theorem sign_curve_of_supported (E : Platform) (ecdsa_type : Nat)
    (h : E.SupportedCurve ecdsa_type) :
    ∃ curve, ndn_signer_ecdsa_sign_curve E ecdsa_type = some curve := by
  cases hc : ndn_signer_ecdsa_sign_curve E ecdsa_type with
  | none => exact absurd h ((sign_curve_eq_none_iff E ecdsa_type).mp hc)
  | some curve => exact ⟨curve, rfl⟩

theorem take_of_stored (buf bytes : List Nat) (n : Nat) (h : bytes.length ≤ n) :
    ((mem_store buf 0 bytes).take n).take bytes.length = bytes := by
  rw [List.take_take, Nat.min_eq_left h]
  exact mem_store_zero_take buf bytes

/-- C11: let `ecdsa_type` be one of the five supported identifiers and suppose that, on the
curve it selects and for every 32-byte hash, the signing primitive called with the private
key succeeds and stores a signature of at most 64 bytes, and that `uECC_verify` with the
public key accepts every signature region that begins with that signature. Then on a fresh
signer with capacity at least 64 `ndn_signer_ecdsa_sign` with the 32-byte private key returns
`0` and sets the cursor to 64, and `ndn_verifier_ecdsa_verify` over the same input, the 64
bytes `output[0 .. 64)`, the 64-byte public key and the same identifier returns `0`. -/
theorem C11_ecdsa_round_trip (E : Platform) (hE : E.DigestSized) (rng : List Nat)
    (input_value : List Nat) (input_size : Nat) (output_value : List Nat)
    (output_max_size : Nat) (private_key public_key : List Nat) (ecdsa_type : Nat)
    (hty : E.SupportedCurve ecdsa_type) (hcap : 64 ≤ output_max_size)
    (hprim : ∀ curve hash, ndn_signer_ecdsa_sign_curve E ecdsa_type = some curve →
      hash.length = 32 →
        (ecc_sign_call E rng private_key hash curve).1 ≠ 0 ∧
        (ecc_sign_call E rng private_key hash curve).2.length ≤ 64 ∧
        ∀ sig, sig.take (ecc_sign_call E rng private_key hash curve).2.length
              = (ecc_sign_call E rng private_key hash curve).2 →
          E.uECC_verify public_key hash 32 sig curve ≠ 0) :
    (ndn_signer_ecdsa_sign E rng
        (fresh_signer input_value input_size output_value output_max_size)
        private_key 32 ecdsa_type).1 = 0 ∧
    (ndn_signer_ecdsa_sign E rng
        (fresh_signer input_value input_size output_value output_max_size)
        private_key 32 ecdsa_type).2.output_used_size = 64 ∧
    ndn_verifier_ecdsa_verify E
        { input_value := input_value
          input_size := input_size
          sig_value := (ndn_signer_ecdsa_sign E rng
            (fresh_signer input_value input_size output_value output_max_size)
            private_key 32 ecdsa_type).2.output_value.take 64
          sig_size := 64 }
        public_key 64 ecdsa_type = 0 := by
  obtain ⟨curve, hcv⟩ := sign_curve_of_supported E ecdsa_type hty
  have hc : ¬ u32 ((fresh_signer input_value input_size output_value
      output_max_size).output_used_size + 64)
      > (fresh_signer input_value input_size output_value output_max_size).output_max_size := by
    simp only [fresh_signer, u32]
    omega
  have hs := hE.1 (input_value.take input_size)
  obtain ⟨hok, hlen, hacc⟩ := hprim curve (E.sha256 (input_value.take input_size)) hcv hs
  have hsign := ecdsa_sign_dispatch E rng
    (fresh_signer input_value input_size output_value output_max_size)
    private_key ecdsa_type curve hc hcv
  simp only [fresh_signer, mem_store_scratch _ hs] at hsign
  rw [if_neg hok] at hsign
  simp only [fresh_signer]
  rw [hsign]
  refine ⟨rfl, by simp [u32], ?_⟩
  rcases ecdsa_verify_outcome E
      { input_value := input_value
        input_size := input_size
        sig_value := (mem_store output_value 0
          (ecc_sign_call E rng private_key (E.sha256 (input_value.take input_size))
            curve).2).take 64
        sig_size := 64 }
      public_key 64 ecdsa_type with
    ⟨h, _⟩ | ⟨_, h, _⟩ | ⟨_, _, h, _⟩ | ⟨_, _, c, hcc, hv, _⟩ | ⟨_, _, _, _, _, e⟩
  · exact absurd rfl h
  · exact absurd rfl h
  · rw [← sign_curve_eq_verify_curve, hcv] at h
    exact absurd h (by simp)
  · rw [← sign_curve_eq_verify_curve, hcv] at hcc
    have hcurve : curve = c := Option.some.inj hcc
    subst hcurve
    simp only [mem_store_scratch _ hs] at hv
    exact absurd hv (hacc _ (take_of_stored _ _ 64 hlen))
  · exact e

/-- On the sample platform the stand-in primitives satisfy the assumption of the round
trip for `sample_key` and `sample_public_key`, on every curve. -/
theorem sample_primitives_match (rng hash : List Nat) (curve : uECC_Curve) :
    (ecc_sign_call samplePlatform rng sample_key hash curve).1 ≠ 0 ∧
    (ecc_sign_call samplePlatform rng sample_key hash curve).2.length ≤ 64 ∧
    ∀ sig, sig.take (ecc_sign_call samplePlatform rng sample_key hash curve).2.length
          = (ecc_sign_call samplePlatform rng sample_key hash curve).2 →
      samplePlatform.uECC_verify sample_public_key hash 32 sig curve ≠ 0 := by
  refine ⟨by simp [ecc_sign_call, samplePlatform, sample_sign],
    by simp [ecc_sign_call, samplePlatform, sample_sign], ?_⟩
  intro sig hsig
  have h64 : (ecc_sign_call samplePlatform rng sample_key hash curve).2.length = 64 := by
    simp [ecc_sign_call, samplePlatform, sample_sign]
  rw [h64] at hsig
  have hk : sample_public_key.sum = sample_key.sum := by decide
  have he : (sample_sign sample_public_key hash).2
      = (ecc_sign_call samplePlatform rng sample_key hash curve).2 := by
    simp only [ecc_sign_call, samplePlatform, sample_sign, hk]
    rfl
  simp only [samplePlatform, he, hsig]
  decide

/-- C11 on the sample platform: identifier 24 (`SECP256R1`), `sample_key` as the private key
and `sample_public_key` as the public key, on a 64-byte output region. -/
theorem C11_ecdsa_round_trip_witness :
    samplePlatform.DigestSized ∧ samplePlatform.SupportedCurve 24 ∧
    (ndn_signer_ecdsa_sign samplePlatform []
        (fresh_signer [1, 2, 3] 3 (List.replicate 64 0) 64)
        sample_key 32 24).2.output_used_size = 64 ∧
    ndn_verifier_ecdsa_verify samplePlatform
        { input_value := [1, 2, 3]
          input_size := 3
          sig_value := (ndn_signer_ecdsa_sign samplePlatform []
            (fresh_signer [1, 2, 3] 3 (List.replicate 64 0) 64)
            sample_key 32 24).2.output_value.take 64
          sig_size := 64 }
        sample_public_key 64 24 = 0 :=
  ⟨sample_digest_sized, by decide,
    (C11_ecdsa_round_trip samplePlatform sample_digest_sized [] [1, 2, 3] 3
      (List.replicate 64 0) 64 sample_key sample_public_key 24 (by decide) (le_refl 64)
      (fun curve hash _ _ => sample_primitives_match [] hash curve)).2.1,
    (C11_ecdsa_round_trip samplePlatform sample_digest_sized [] [1, 2, 3] 3
      (List.replicate 64 0) 64 sample_key sample_public_key 24 (by decide) (le_refl 64)
      (fun curve hash _ _ => sample_primitives_match [] hash curve)).2.2⟩

theorem ecc_sign_call_deterministic (E : Platform) (hdet : E.FEATURE_PERIPH_HWRNG = false)
    (rng key_value input_hash : List Nat) (curve : uECC_Curve) :
    ecc_sign_call E rng key_value input_hash curve
      = E.uECC_sign_deterministic key_value input_hash 32 (HashContext E) curve := by
  simp [ecc_sign_call, hdet]

/-- C12: in deterministic mode (`FEATURE_PERIPH_HWRNG` not defined) two calls of
`ndn_signer_ecdsa_sign` with the same input bytes, the same key, key size and curve
identifier and the same output region, capacity and cursor return the same result code and
leave the same bytes in the output region and the same cursor, whatever the state of the
platform random source is at either call. -/
theorem C12_deterministic_sign_is_a_function (E : Platform)
    (hdet : E.FEATURE_PERIPH_HWRNG = false) (rng1 rng2 : List Nat)
    (signer1 signer2 : ndn_signer_t) (key_value : List Nat) (key_size ecdsa_type : Nat)
    (hin : signer1.input_value.take signer1.input_size
      = signer2.input_value.take signer2.input_size)
    (hout : signer1.output_value = signer2.output_value)
    (hmax : signer1.output_max_size = signer2.output_max_size)
    (hused : signer1.output_used_size = signer2.output_used_size) :
    (ndn_signer_ecdsa_sign E rng1 signer1 key_value key_size ecdsa_type).1
      = (ndn_signer_ecdsa_sign E rng2 signer2 key_value key_size ecdsa_type).1 ∧
    (ndn_signer_ecdsa_sign E rng1 signer1 key_value key_size ecdsa_type).2.output_value
      = (ndn_signer_ecdsa_sign E rng2 signer2 key_value key_size ecdsa_type).2.output_value ∧
    (ndn_signer_ecdsa_sign E rng1 signer1 key_value key_size ecdsa_type).2.output_used_size
      = (ndn_signer_ecdsa_sign E rng2 signer2 key_value key_size ecdsa_type).2.output_used_size
    := by
  by_cases h2 : u32 (signer2.output_used_size + 64) > signer2.output_max_size
  · have h1 : u32 (signer1.output_used_size + 64) > signer1.output_max_size := by
      rw [hused, hmax]; exact h2
    rw [ecdsa_sign_reject E rng1 signer1 key_value key_size ecdsa_type h1,
      ecdsa_sign_reject E rng2 signer2 key_value key_size ecdsa_type h2]
    exact ⟨rfl, hout, hused⟩
  · have h1 : ¬ u32 (signer1.output_used_size + 64) > signer1.output_max_size := by
      rw [hused, hmax]; exact h2
    by_cases hk : key_size ≠ 32
    · rw [ecdsa_sign_wrong_key E rng1 signer1 key_value key_size ecdsa_type h1 hk,
        ecdsa_sign_wrong_key E rng2 signer2 key_value key_size ecdsa_type h2 hk]
      exact ⟨rfl, hout, hused⟩
    · have hk32 : key_size = 32 := by simpa using hk
      subst hk32
      cases hcv : ndn_signer_ecdsa_sign_curve E ecdsa_type with
      | none =>
        rw [ecdsa_sign_no_curve E rng1 signer1 key_value ecdsa_type h1 hcv,
          ecdsa_sign_no_curve E rng2 signer2 key_value ecdsa_type h2 hcv]
        exact ⟨rfl, hout, hused⟩
      | some curve =>
        rw [ecdsa_sign_dispatch E rng1 signer1 key_value ecdsa_type curve h1 hcv,
          ecdsa_sign_dispatch E rng2 signer2 key_value ecdsa_type curve h2 hcv,
          ecc_sign_call_deterministic E hdet rng1, ecc_sign_call_deterministic E hdet rng2,
          hin, hout, hused]
        split_ifs
        · exact ⟨rfl, rfl, rfl⟩
        · exact ⟨rfl, rfl, rfl⟩

/-- C12 on the sample platform: the same call at two different states of the random
source. -/
theorem C12_deterministic_sign_is_a_function_witness :
    samplePlatform.FEATURE_PERIPH_HWRNG = false ∧
    ndn_signer_ecdsa_sign samplePlatform [] (sample_signer 64 0) sample_key 32 24
      = ndn_signer_ecdsa_sign samplePlatform [9, 9] (sample_signer 64 0) sample_key 32 24 :=
  ⟨rfl,
    Prod.ext
      (C12_deterministic_sign_is_a_function samplePlatform rfl [] [9, 9] (sample_signer 64 0)
        (sample_signer 64 0) sample_key 32 24 rfl rfl rfl rfl).1
      (by decide)⟩

/-- C13, counterexample to the claim as stated: on the probe platform, whose deterministic
signing primitive stores the sizes of the hash context it is handed, a successful
`ndn_signer_ecdsa_sign` leaves `64, 32, 128` at the base of the output region: the scratch
region has 128 bytes, not `32 + 32 + 2 * 64 = 192`. -/
theorem C13_scratch_region_is_128_bytes :
    (ndn_signer_ecdsa_sign probePlatform [] (sample_signer 64 0) sample_key 32 24).1 = 0 ∧
    (ndn_signer_ecdsa_sign probePlatform [] (sample_signer 64 0)
        sample_key 32 24).2.output_value.take 3 = [64, 32, 128] ∧
    (128 : Nat) ≠ 32 + 32 + 2 * 64 := by
  decide

/-- C13 as amended: in deterministic mode, past its three checks, `ndn_signer_ecdsa_sign`
is the call of `uECC_sign_deterministic` with the key, the digest of the input, the digest
length 32 and a hash context whose block size is 64, whose result size is 32 and whose
scratch region has exactly `32 + 32 + 64 = 128` bytes (key length + digest length +
signature length, which is also twice the result size plus the block size). -/
theorem C13_hash_context_sizes (E : Platform) (hdet : E.FEATURE_PERIPH_HWRNG = false)
    (rng : List Nat) (signer : ndn_signer_t) (key_value : List Nat) (ecdsa_type : Nat)
    (curve : uECC_Curve)
    (h : ¬ u32 (signer.output_used_size + 64) > signer.output_max_size)
    (hc : ndn_signer_ecdsa_sign_curve E ecdsa_type = some curve) :
    (HashContext E).block_size = 64 ∧ (HashContext E).result_size = 32 ∧
    (HashContext E).tmp = 32 + 32 + 64 ∧
    (HashContext E).tmp = 2 * (HashContext E).result_size + (HashContext E).block_size ∧
    ndn_signer_ecdsa_sign E rng signer key_value 32 ecdsa_type =
      if (E.uECC_sign_deterministic key_value
            (mem_store (List.replicate 32 0) 0
              (E.sha256 (signer.input_value.take signer.input_size)))
            32 (HashContext E) curve).1 = 0 then
        (E.NDN_ERROR_CRYPTO_ALGO_FAILURE,
          { signer with
            output_value := mem_store signer.output_value 0
              (E.uECC_sign_deterministic key_value
                (mem_store (List.replicate 32 0) 0
                  (E.sha256 (signer.input_value.take signer.input_size)))
                32 (HashContext E) curve).2 })
      else
        (0,
          { signer with
            output_value := mem_store signer.output_value 0
              (E.uECC_sign_deterministic key_value
                (mem_store (List.replicate 32 0) 0
                  (E.sha256 (signer.input_value.take signer.input_size)))
                32 (HashContext E) curve).2
            output_used_size := u32 (signer.output_used_size + 64) }) := by
  refine ⟨rfl, rfl, rfl, rfl, ?_⟩
  rw [ecdsa_sign_dispatch E rng signer key_value ecdsa_type curve h hc,
    ecc_sign_call_deterministic E hdet]

/-- C13 as amended, on the probe platform: the context sizes and the bytes `64, 32, 128`
the primitive stored. -/
theorem C13_hash_context_sizes_witness :
    probePlatform.FEATURE_PERIPH_HWRNG = false ∧
    (HashContext probePlatform).tmp = 128 ∧
    (ndn_signer_ecdsa_sign probePlatform [] (sample_signer 64 0)
        sample_key 32 24).2.output_value = [64, 32, 128] ++ List.replicate 61 0 :=
  ⟨rfl,
    (C13_hash_context_sizes probePlatform rfl [] (sample_signer 64 0) sample_key 24
      uECC_Curve.uECC_secp256r1 (by decide) (by decide)).2.2.1,
    (congrArg (fun r => r.2.output_value)
      (C13_hash_context_sizes probePlatform rfl [] (sample_signer 64 0) sample_key 24
        uECC_Curve.uECC_secp256r1 (by decide) (by decide)).2.2.2.2).trans (by decide)⟩

/-! ## The output region on error paths (C14) -/

theorem mem_store_nil (buf : List Nat) : mem_store buf 0 [] = buf := by
  simp [mem_store]

/-- C14, counterexample to the claim as stated: on the platform whose deterministic signing
primitive stores 32 bytes and then reports failure, `ndn_signer_ecdsa_sign` returns
`NDN_ERROR_CRYPTO_ALGO_FAILURE` with the cursor unchanged, and the first 32 bytes of the
output region, zero before the call, are `0xAA` after it. -/
theorem C14_failed_primitive_leaves_its_bytes :
    (ndn_signer_ecdsa_sign halfwayPlatform [] (sample_signer 64 0) sample_key 32 24).1
      = halfwayPlatform.NDN_ERROR_CRYPTO_ALGO_FAILURE ∧
    (ndn_signer_ecdsa_sign halfwayPlatform [] (sample_signer 64 0)
        sample_key 32 24).2.output_used_size = 0 ∧
    (sample_signer 64 0).output_value = List.replicate 64 0 ∧
    (ndn_signer_ecdsa_sign halfwayPlatform [] (sample_signer 64 0)
        sample_key 32 24).2.output_value
      = List.replicate 32 170 ++ List.replicate 32 0 ∧
    (ndn_signer_ecdsa_sign halfwayPlatform [] (sample_signer 64 0)
        sample_key 32 24).2.output_value ≠ (sample_signer 64 0).output_value := by
  decide

/-- C14 as amended: for each of the three sign operations, a call that returns an error
leaves the contents of the output region as they were, provided that, if this call reaches
the signing primitive (the operation is `ndn_signer_ecdsa_sign` with key size 32, the
capacity check passes and the identifier selects a curve) and the primitive reports failure,
then this very call of the primitive, on the key, the digest of the input and the curve of
the call, stored nothing. Nothing is asked of the primitive on any other arguments, and
nothing at all on the other error paths. -/
theorem C14_failed_sign_keeps_buffer (E : Platform) (signer : ndn_signer_t) (op : SignOp)
    (h : (op.run E signer).1 ≠ 0)
    (hquiet : ∀ rng key_value ecdsa_type curve,
      op = SignOp.ecdsa rng key_value 32 ecdsa_type →
      ¬ u32 (signer.output_used_size + 64) > signer.output_max_size →
      ndn_signer_ecdsa_sign_curve E ecdsa_type = some curve →
      (ecc_sign_call E rng key_value
        (mem_store (List.replicate 32 0) 0
          (E.sha256 (signer.input_value.take signer.input_size))) curve).1 = 0 →
      (ecc_sign_call E rng key_value
        (mem_store (List.replicate 32 0) 0
          (E.sha256 (signer.input_value.take signer.input_size))) curve).2 = []) :
    (op.run E signer).2.output_value = signer.output_value := by
  cases op with
  | sha256 =>
    simp only [SignOp.run] at *
    by_cases hc : u32 (signer.output_used_size + 32) > signer.output_max_size
    · rw [sha256_sign_reject E signer hc]
    · rw [sha256_sign_accept E signer hc] at h
      exact absurd rfl h
  | ecdsa rng key_value key_size ecdsa_type =>
    simp only [SignOp.run] at h ⊢
    by_cases hc : u32 (signer.output_used_size + 64) > signer.output_max_size
    · rw [ecdsa_sign_reject E rng signer key_value key_size ecdsa_type hc]
    · by_cases hk : key_size ≠ 32
      · rw [ecdsa_sign_wrong_key E rng signer key_value key_size ecdsa_type hc hk]
      · have hk32 : key_size = 32 := by simpa using hk
        subst hk32
        cases hcv : ndn_signer_ecdsa_sign_curve E ecdsa_type with
        | none => rw [ecdsa_sign_no_curve E rng signer key_value ecdsa_type hc hcv]
        | some curve =>
          have hd := ecdsa_sign_dispatch E rng signer key_value ecdsa_type curve hc hcv
          by_cases hr : (ecc_sign_call E rng key_value
              (mem_store (List.replicate 32 0) 0
                (E.sha256 (signer.input_value.take signer.input_size))) curve).1 = 0
          · rw [if_pos hr] at hd
            have hq := hquiet rng key_value ecdsa_type curve rfl hc hcv hr
            rw [hd, hq]
            exact mem_store_nil _
          · rw [if_neg hr] at hd
            rw [hd] at h
            exact absurd rfl h
  | hmac key_value key_size =>
    simp only [SignOp.run] at *
    by_cases hc : u32 (signer.output_used_size + 32) > signer.output_max_size
    · rw [hmac_sign_reject E signer key_value key_size hc]
    · by_cases hk : key_size ≠ 32
      · rw [hmac_sign_wrong_key E signer key_value key_size hc hk]
      · have hk32 : key_size = 32 := by simpa using hk
        subst hk32
        rw [hmac_sign_accept E signer key_value hc] at h
        exact absurd rfl h

/-- C14 as amended, on a platform whose signing primitive stores nothing for the key of the
call but would store 32 bytes for other keys: `ndn_signer_ecdsa_sign` with `sample_key`
returns `NDN_ERROR_CRYPTO_ALGO_FAILURE` and the output region is unchanged, while the same
primitive called with the key `[1]` stores 32 bytes before it fails. -/
theorem C14_failed_sign_keeps_buffer_witness :
    ((SignOp.ecdsa [] sample_key 32 24).run selectivePlatform (sample_signer 64 0)).1
      = selectivePlatform.NDN_ERROR_CRYPTO_ALGO_FAILURE ∧
    (ecc_sign_call selectivePlatform [] [1] [] uECC_Curve.uECC_secp256r1).2
      = List.replicate 32 170 ∧
    ((SignOp.ecdsa [] sample_key 32 24).run selectivePlatform
        (sample_signer 64 0)).2.output_value
      = (sample_signer 64 0).output_value :=
  ⟨by decide, by decide,
    C14_failed_sign_keeps_buffer selectivePlatform (sample_signer 64 0)
      (SignOp.ecdsa [] sample_key 32 24) (by decide)
      (fun rng key_value ecdsa_type curve hop _ _ _ => by
        have hkey : key_value = sample_key := by
          injection hop with _ hk _ _
          exact hk.symm
        subst hkey
        have hsum : sample_key.sum = 224 := by decide
        simp [ecc_sign_call, selectivePlatform, samplePlatform, hsum])⟩

/-! ## The randomness source (C15) -/

/-- C15: `ndn_lite_rng_nrf_crypto` returns `1` exactly when `nrf_crypto_init` and
`nrf_crypto_rng_vector_generate` both return `NRF_SUCCESS`, and `0` in every other case;
when the initialisation fails, the only library call made is `nrf_crypto_init`, so the
generation is not performed and `dest` is as before the call. -/
theorem C15_rng_reports_failure (S : NrfSdk) (dest : List Nat) (size : Nat) :
    ((ndn_lite_rng_nrf_crypto S dest size).ret = 1 ↔
      S.nrf_crypto_init = S.NRF_SUCCESS ∧
      (S.nrf_crypto_rng_vector_generate dest size).1 = S.NRF_SUCCESS) ∧
    ((ndn_lite_rng_nrf_crypto S dest size).ret = 0 ↔
      ¬ (S.nrf_crypto_init = S.NRF_SUCCESS ∧
        (S.nrf_crypto_rng_vector_generate dest size).1 = S.NRF_SUCCESS)) ∧
    (S.nrf_crypto_init ≠ S.NRF_SUCCESS →
      (ndn_lite_rng_nrf_crypto S dest size).ret = 0 ∧
      (ndn_lite_rng_nrf_crypto S dest size).calls = [NrfCall.nrf_crypto_init] ∧
      (ndn_lite_rng_nrf_crypto S dest size).dest = dest) := by
  unfold ndn_lite_rng_nrf_crypto
  by_cases hi : S.nrf_crypto_init = S.NRF_SUCCESS
  · by_cases hg : (S.nrf_crypto_rng_vector_generate dest size).1 = S.NRF_SUCCESS
    · simp [hi, hg]
    · simp [hi, hg]
  · simp [hi]

/-- C15 on an SDK whose initialisation fails: the result is `0`, the generator (which would
have filled `dest` with `0x55`) was not called, and `dest` is unchanged. -/
theorem C15_rng_reports_failure_witness :
    sample_sdk_init_fails.nrf_crypto_init ≠ sample_sdk_init_fails.NRF_SUCCESS ∧
    (ndn_lite_rng_nrf_crypto sample_sdk_init_fails [0, 0, 0, 0] 4).ret = 0 ∧
    (ndn_lite_rng_nrf_crypto sample_sdk_init_fails [0, 0, 0, 0] 4).calls
      = [NrfCall.nrf_crypto_init] ∧
    (ndn_lite_rng_nrf_crypto sample_sdk_init_fails [0, 0, 0, 0] 4).dest = [0, 0, 0, 0] :=
  ⟨by decide, (C15_rng_reports_failure sample_sdk_init_fails [0, 0, 0, 0] 4).2.2 (by decide)⟩

/-! ## Order of the checks, its wrap-around corner (C16), and agreement of the two dispatches (C17) -/

/-- The checks run in a fixed order. In `ndn_signer_ecdsa_sign` and
`ndn_signer_hmac_sign` a failing capacity check (`output_used_size + tag >
output_max_size` as the code evaluates it; without wrap-around of the sum this is
`output_max_size < output_used_size + tag`) yields `NDN_ERROR_OVERSIZE` whatever the key
size and curve are; otherwise a key size other than 32 yields `NDN_ERROR_WRONG_KEY_SIZE`
whatever the curve is; otherwise an unsupported curve yields
`NDN_ERROR_UNSUPPORT_CRYPTO_ALGO`. In `ndn_verifier_ecdsa_verify` and
`ndn_verifier_hmac_verify` a wrong signature size yields `NDN_ERROR_WRONG_SIG_SIZE` whatever
the key size and curve are; otherwise a wrong key size yields `NDN_ERROR_WRONG_KEY_SIZE`;
otherwise an unsupported curve yields `NDN_ERROR_UNSUPPORT_CRYPTO_ALGO`. -/
theorem checks_run_in_order (E : Platform) (rng : List Nat) (signer : ndn_signer_t)
    (verifier : ndn_verifier_t) (key_value : List Nat) (key_size ecdsa_type : Nat) :
    ((u32 (signer.output_used_size + 64) > signer.output_max_size →
        (ndn_signer_ecdsa_sign E rng signer key_value key_size ecdsa_type).1
          = E.NDN_ERROR_OVERSIZE) ∧
      (signer.output_used_size + 64 < 4294967296 →
        signer.output_max_size < signer.output_used_size + 64 →
        (ndn_signer_ecdsa_sign E rng signer key_value key_size ecdsa_type).1
          = E.NDN_ERROR_OVERSIZE) ∧
      (¬ u32 (signer.output_used_size + 64) > signer.output_max_size → key_size ≠ 32 →
        (ndn_signer_ecdsa_sign E rng signer key_value key_size ecdsa_type).1
          = E.NDN_ERROR_WRONG_KEY_SIZE) ∧
      (¬ u32 (signer.output_used_size + 64) > signer.output_max_size → key_size = 32 →
        ¬ E.SupportedCurve ecdsa_type →
        (ndn_signer_ecdsa_sign E rng signer key_value key_size ecdsa_type).1
          = E.NDN_ERROR_UNSUPPORT_CRYPTO_ALGO)) ∧
    ((u32 (signer.output_used_size + 32) > signer.output_max_size →
        (ndn_signer_hmac_sign E signer key_value key_size).1 = E.NDN_ERROR_OVERSIZE) ∧
      (signer.output_used_size + 32 < 4294967296 →
        signer.output_max_size < signer.output_used_size + 32 →
        (ndn_signer_hmac_sign E signer key_value key_size).1 = E.NDN_ERROR_OVERSIZE) ∧
      (¬ u32 (signer.output_used_size + 32) > signer.output_max_size → key_size ≠ 32 →
        (ndn_signer_hmac_sign E signer key_value key_size).1
          = E.NDN_ERROR_WRONG_KEY_SIZE)) ∧
    ((verifier.sig_size ≠ 64 →
        ndn_verifier_ecdsa_verify E verifier key_value key_size ecdsa_type
          = E.NDN_ERROR_WRONG_SIG_SIZE) ∧
      (verifier.sig_size = 64 → key_size ≠ 64 →
        ndn_verifier_ecdsa_verify E verifier key_value key_size ecdsa_type
          = E.NDN_ERROR_WRONG_KEY_SIZE) ∧
      (verifier.sig_size = 64 → key_size = 64 → ¬ E.SupportedCurve ecdsa_type →
        ndn_verifier_ecdsa_verify E verifier key_value key_size ecdsa_type
          = E.NDN_ERROR_UNSUPPORT_CRYPTO_ALGO)) ∧
    ((verifier.sig_size ≠ 32 →
        ndn_verifier_hmac_verify E verifier key_value key_size
          = E.NDN_ERROR_WRONG_SIG_SIZE) ∧
      (verifier.sig_size = 32 → key_size ≠ 32 →
        ndn_verifier_hmac_verify E verifier key_value key_size
          = E.NDN_ERROR_WRONG_KEY_SIZE)) := by
  refine ⟨⟨?_, ?_, ?_, ?_⟩, ⟨?_, ?_, ?_⟩, ⟨?_, ?_, ?_⟩, ⟨?_, ?_⟩⟩
  · intro h
    rw [ecdsa_sign_reject E rng signer key_value key_size ecdsa_type h]
  · intro hw h
    rw [ecdsa_sign_reject E rng signer key_value key_size ecdsa_type
      (by rw [u32_of_lt _ hw]; exact h)]
  · intro h hk
    rw [ecdsa_sign_wrong_key E rng signer key_value key_size ecdsa_type h hk]
  · intro h hk hs
    subst hk
    rw [ecdsa_sign_no_curve E rng signer key_value ecdsa_type h
      ((sign_curve_eq_none_iff E ecdsa_type).mpr hs)]
  · intro h
    rw [hmac_sign_reject E signer key_value key_size h]
  · intro hw h
    rw [hmac_sign_reject E signer key_value key_size (by rw [u32_of_lt _ hw]; exact h)]
  · intro h hk
    rw [hmac_sign_wrong_key E signer key_value key_size h hk]
  · intro h
    simp [ndn_verifier_ecdsa_verify, h]
  · intro h hk
    simp [ndn_verifier_ecdsa_verify, h, hk]
  · intro h hk hs
    have hn : ndn_verifier_ecdsa_verify_curve E ecdsa_type = none := by
      rw [← sign_curve_eq_verify_curve]
      exact (sign_curve_eq_none_iff E ecdsa_type).mpr hs
    simp [ndn_verifier_ecdsa_verify, h, hk, hn]
  · intro h
    simp [ndn_verifier_hmac_verify, h]
  · intro h hk
    simp [ndn_verifier_hmac_verify, h, hk]

/-- The order of the checks on the sample platform, all preconditions failing at once: a
full output region, a 31-byte key and the unsupported identifier 0 give
`NDN_ERROR_OVERSIZE`; a 63-byte signature, a 31-byte key and the identifier 0 give
`NDN_ERROR_WRONG_SIG_SIZE`. -/
theorem checks_run_in_order_sample :
    u32 ((sample_signer 64 64).output_used_size + 64) > (sample_signer 64 64).output_max_size ∧
    (ndn_signer_ecdsa_sign samplePlatform [] (sample_signer 64 64) sample_key 31 0).1
      = samplePlatform.NDN_ERROR_OVERSIZE ∧
    (sample_verifier 63).sig_size ≠ 64 ∧
    ndn_verifier_ecdsa_verify samplePlatform (sample_verifier 63) sample_key 31 0
      = samplePlatform.NDN_ERROR_WRONG_SIG_SIZE :=
  ⟨by decide,
    (checks_run_in_order samplePlatform [] (sample_signer 64 64) (sample_verifier 63)
      sample_key 31 0).1.1 (by decide),
    by decide,
    (checks_run_in_order samplePlatform [] (sample_signer 64 64) (sample_verifier 63)
      sample_key 31 0).2.2.1.1 (by decide)⟩

/-- C16, evaluation of the code at the failing input: with the capacity `2^32 - 1` and the
cursor at `2^32 - 32` only 31 bytes remain, fewer than the 32-byte tag, yet
`ndn_signer_hmac_sign` with a 31-byte key returns `NDN_ERROR_WRONG_KEY_SIZE`; with the
cursor at `2^32 - 64` only 63 bytes remain, fewer than the 64-byte tag, yet
`ndn_signer_ecdsa_sign` with a 31-byte key returns `NDN_ERROR_WRONG_KEY_SIZE`, whatever the
curve identifier is. In both calls the sum of the capacity check wraps to `0`, the check
does not fire, and the key-size error is reported in place of `NDN_ERROR_OVERSIZE`. -/
theorem C16_wrap_reports_key_size_before_oversize (E : Platform)
    (rng input_value output_value key_value : List Nat) (input_size ecdsa_type : Nat) :
    (4294967295 : Nat) - 4294967264 < (SignOp.hmac key_value 31).tag_length ∧
    ndn_signer_hmac_sign E
        { input_value := input_value, input_size := input_size, output_value := output_value,
          output_max_size := 4294967295, output_used_size := 4294967264 }
        key_value 31
      = (E.NDN_ERROR_WRONG_KEY_SIZE,
          { input_value := input_value, input_size := input_size,
            output_value := output_value,
            output_max_size := 4294967295, output_used_size := 4294967264 }) ∧
    (4294967295 : Nat) - 4294967232 < (SignOp.ecdsa rng key_value 31 ecdsa_type).tag_length ∧
    ndn_signer_ecdsa_sign E rng
        { input_value := input_value, input_size := input_size, output_value := output_value,
          output_max_size := 4294967295, output_used_size := 4294967232 }
        key_value 31 ecdsa_type
      = (E.NDN_ERROR_WRONG_KEY_SIZE,
          { input_value := input_value, input_size := input_size,
            output_value := output_value,
            output_max_size := 4294967295, output_used_size := 4294967232 }) := by
  simp [SignOp.tag_length, ndn_signer_hmac_sign, ndn_signer_ecdsa_sign, u32]

/-- C17: the `switch` of `ndn_signer_ecdsa_sign` and that of `ndn_verifier_ecdsa_verify` send
every identifier to the same result; the result is a curve exactly for the five supported
identifiers; for any other identifier both functions return
`NDN_ERROR_UNSUPPORT_CRYPTO_ALGO` once their size checks pass; and for a supported
identifier both hand their primitive the same curve and the same 32-byte `sha256` digest
of the input. -/
theorem C17_dispatch_agreement (E : Platform) (hE : E.DigestSized) (rng : List Nat)
    (signer : ndn_signer_t) (verifier : ndn_verifier_t) (private_key public_key : List Nat)
    (ecdsa_type : Nat)
    (hcap : ¬ u32 (signer.output_used_size + 64) > signer.output_max_size)
    (hsig : verifier.sig_size = 64)
    (hin : verifier.input_value.take verifier.input_size
      = signer.input_value.take signer.input_size) :
    ndn_signer_ecdsa_sign_curve E ecdsa_type = ndn_verifier_ecdsa_verify_curve E ecdsa_type ∧
    ((∃ curve, ndn_signer_ecdsa_sign_curve E ecdsa_type = some curve) ↔
      E.SupportedCurve ecdsa_type) ∧
    (¬ E.SupportedCurve ecdsa_type →
      (ndn_signer_ecdsa_sign E rng signer private_key 32 ecdsa_type).1
        = E.NDN_ERROR_UNSUPPORT_CRYPTO_ALGO ∧
      ndn_verifier_ecdsa_verify E verifier public_key 64 ecdsa_type
        = E.NDN_ERROR_UNSUPPORT_CRYPTO_ALGO) ∧
    (∀ curve, ndn_signer_ecdsa_sign_curve E ecdsa_type = some curve →
      (E.sha256 (signer.input_value.take signer.input_size)).length = 32 ∧
      (ndn_signer_ecdsa_sign E rng signer private_key 32 ecdsa_type).1 =
        (if (ecc_sign_call E rng private_key
              (E.sha256 (signer.input_value.take signer.input_size)) curve).1 = 0 then
          E.NDN_ERROR_CRYPTO_ALGO_FAILURE
        else 0) ∧
      ndn_verifier_ecdsa_verify E verifier public_key 64 ecdsa_type =
        (if E.uECC_verify public_key
              (E.sha256 (signer.input_value.take signer.input_size)) 32
              verifier.sig_value curve = 0 then -1
        else 0)) := by
  have hs := hE.1 (signer.input_value.take signer.input_size)
  refine ⟨rfl, ?_, ?_, ?_⟩
  · constructor
    · rintro ⟨curve, hc⟩
      by_contra hn
      rw [(sign_curve_eq_none_iff E ecdsa_type).mpr hn] at hc
      exact absurd hc (by simp)
    · exact sign_curve_of_supported E ecdsa_type
  · intro hn
    have hnone := (sign_curve_eq_none_iff E ecdsa_type).mpr hn
    refine ⟨by rw [ecdsa_sign_no_curve E rng signer private_key ecdsa_type hcap hnone], ?_⟩
    have hv : ndn_verifier_ecdsa_verify_curve E ecdsa_type = none := hnone
    simp [ndn_verifier_ecdsa_verify, hsig, hv]
  · intro curve hc
    refine ⟨hs, ?_, ?_⟩
    · rw [ecdsa_sign_dispatch E rng signer private_key ecdsa_type curve hcap hc,
        mem_store_scratch _ hs]
      split_ifs <;> rfl
    · have hv : ndn_verifier_ecdsa_verify_curve E ecdsa_type = some curve := hc
      simp only [ndn_verifier_ecdsa_verify, hsig, hv, hin, mem_store_scratch _ hs, ne_eq,
        not_true_eq_false, if_false]

/-- C17 on the sample platform: the identifier 0 is rejected by both functions, on a signer
with room for 64 bytes and a verifier with a 64-byte signature. -/
theorem C17_dispatch_agreement_witness :
    samplePlatform.DigestSized ∧ ¬ samplePlatform.SupportedCurve 0 ∧
    (ndn_signer_ecdsa_sign samplePlatform [] (sample_signer 64 0) sample_key 32 0).1
      = samplePlatform.NDN_ERROR_UNSUPPORT_CRYPTO_ALGO ∧
    ndn_verifier_ecdsa_verify samplePlatform (sample_verifier 64) sample_public_key 64 0
      = samplePlatform.NDN_ERROR_UNSUPPORT_CRYPTO_ALGO :=
  ⟨sample_digest_sized, by decide,
    (C17_dispatch_agreement samplePlatform sample_digest_sized [] (sample_signer 64 0)
      (sample_verifier 64) sample_key sample_public_key 0 (by decide) rfl rfl).2.2.1
      (by decide)⟩

end NdnLite
